import Mathlib

/-!
# Well-pump protection controller: shallow embedding of `main.c`

The firmware keeps four `uint8_t` counters and drives two 8-bit output
registers.  Registers and counters are natural numbers; every store to one of
them is reduced modulo `2 ^ 8`.  One iteration of the `while (1)` loop of
`main` is the step function `main_loop_body`; the value read from the input
register `PIND` in that iteration is its argument.
-/

namespace WPP

/-! ## Bit numbers of the device header -/

/-- Bit number of `PINB0` in the avr-libc device header (ATtiny2313). -/
def PINB0 : Nat := 0
/-- Bit number of `PINB1` in the avr-libc device header. -/
def PINB1 : Nat := 1
/-- Bit number of `PINB2` in the avr-libc device header. -/
def PINB2 : Nat := 2
/-- Bit number of `PINB7` in the avr-libc device header. -/
def PINB7 : Nat := 7
/-- Bit number of `PIND2` in the avr-libc device header. -/
def PIND2 : Nat := 2
/-- Bit number of `PIND3` in the avr-libc device header. -/
def PIND3 : Nat := 3
/-- Bit number of `PIND6` in the avr-libc device header. -/
def PIND6 : Nat := 6
/-- Bit number of `ACD` (analog comparator disable) in `ACSR`. -/
def ACD : Nat := 7

/-! ## Constants of `main.c` -/

def WLS_ALARM_LED_1_PIN : Nat := PINB1
def WLS_ALARM_LED_2_PIN : Nat := PINB2
def STATUS_LED_PIN : Nat := PINB0
def STATUS_LED_BLINK_THRESHOLD : Nat := 5
def BUZZER_PIN : Nat := PINB7
def BUZZER_BEEP_PERIOD_THRESHOLD : Nat := 10
def PUMP_RELAY_PIN : Nat := PIND6
def WLS_INPUT_1_PIN : Nat := PIND2
def WLS_INPUT_2_PIN : Nat := PIND3
def ALARM_THRESHOLD : Nat := 10

/-! ## Machine state -/

/-- The registers written by the firmware and its four static counters. -/
structure State where
  PORTB : Nat
  PORTD : Nat
  DDRB : Nat
  DDRD : Nat
  ACSR : Nat
  status_led_counter : Nat
  buzzer_beep_counter : Nat
  wls_alarm_counter_1 : Nat
  wls_alarm_counter_2 : Nat
  deriving DecidableEq, Repr

/-- Truncation of a value stored into a `uint8_t` object or an 8-bit register. -/
def u8 (n : Nat) : Nat := n % 2 ^ 8

/-- The value of a `uint8_t` object after `--`: one less modulo `2 ^ 8`, so that
`0` wraps to `255`. -/
def u8dec (n : Nat) : Nat := u8 (n + (2 ^ 8 - 1))

/-- The 8-bit result of `r |= (1 << pin)`. -/
def setBit (r pin : Nat) : Nat := u8 (r ||| (1 <<< pin))

/-- The 8-bit result of `r &= ~(1 << pin)`: the complement is taken on the
promoted `int`, of which only the low eight bits reach the register. -/
def clearBit (r pin : Nat) : Nat := u8 (r &&& (255 ^^^ (1 <<< pin)))

/-- The 8-bit result of `r ^= (1 << pin)`. -/
def toggleBit (r pin : Nat) : Nat := u8 (r ^^^ (1 <<< pin))

/-! ## The output defines -/

def WLS_ALARM_LED_1_ON (s : State) : State :=
  { s with PORTB := setBit s.PORTB WLS_ALARM_LED_1_PIN }

def WLS_ALARM_LED_2_ON (s : State) : State :=
  { s with PORTB := setBit s.PORTB WLS_ALARM_LED_2_PIN }

def WLS_ALARM_LED_1_OFF (s : State) : State :=
  { s with PORTB := clearBit s.PORTB WLS_ALARM_LED_1_PIN }

def WLS_ALARM_LED_2_OFF (s : State) : State :=
  { s with PORTB := clearBit s.PORTB WLS_ALARM_LED_2_PIN }

def STATUS_LED_BLINK (s : State) : State :=
  { s with PORTB := toggleBit s.PORTB STATUS_LED_PIN }

def BUZZER_BEEP_ON (s : State) : State :=
  { s with PORTB := setBit s.PORTB BUZZER_PIN }

def BUZZER_BEEP_OFF (s : State) : State :=
  { s with PORTB := clearBit s.PORTB BUZZER_PIN }

def BUZZER_TOGGLE (s : State) : State :=
  { s with PORTB := toggleBit s.PORTB BUZZER_PIN }

/-- High level on the relay pin switches the pump off. -/
def PUMP_RELAY_OFF (s : State) : State :=
  { s with PORTD := setBit s.PORTD PUMP_RELAY_PIN }

def PUMP_RELAY_ON (s : State) : State :=
  { s with PORTD := clearBit s.PORTD PUMP_RELAY_PIN }

/-- The value of `WLS_INPUT_PORT & (1 << WLS_INPUT_1_PIN)` for a read `pind`. -/
def CHECK_ALARM_PIN_WLS_1 (pind : Nat) : Nat := pind &&& (1 <<< WLS_INPUT_1_PIN)

/-- The value of `WLS_INPUT_PORT & (1 << WLS_INPUT_2_PIN)` for a read `pind`. -/
def CHECK_ALARM_PIN_WLS_2 (pind : Nat) : Nat := pind &&& (1 <<< WLS_INPUT_2_PIN)

/-! ## Functions of `main.c` -/

/-- Non-zero when the first sensor is in alarm. -/
def wls_alarm_1 (s : State) : Nat :=
  if s.wls_alarm_counter_1 ≥ ALARM_THRESHOLD then 1 else 0

/-- Non-zero when the second sensor is in alarm. -/
def wls_alarm_2 (s : State) : Nat :=
  if s.wls_alarm_counter_2 ≥ ALARM_THRESHOLD then 1 else 0

/-- The first `if` block of `read_sensors` (sensor 1). -/
def read_sensor_1 (s : State) (pind : Nat) : State :=
  if wls_alarm_1 s = 0 then
    if CHECK_ALARM_PIN_WLS_1 pind ≠ 0 then
      if s.wls_alarm_counter_1 < ALARM_THRESHOLD then
        { s with wls_alarm_counter_1 := u8 (s.wls_alarm_counter_1 + 1) }
      else s
    else
      if s.wls_alarm_counter_1 > 0 then
        { s with wls_alarm_counter_1 := u8dec s.wls_alarm_counter_1 }
      else s
  else s

/-- The second `if` block of `read_sensors` (sensor 2). -/
def read_sensor_2 (s : State) (pind : Nat) : State :=
  if wls_alarm_2 s = 0 then
    if CHECK_ALARM_PIN_WLS_2 pind ≠ 0 then
      if s.wls_alarm_counter_2 < ALARM_THRESHOLD then
        { s with wls_alarm_counter_2 := u8 (s.wls_alarm_counter_2 + 1) }
      else s
    else
      if s.wls_alarm_counter_2 > 0 then
        { s with wls_alarm_counter_2 := u8dec s.wls_alarm_counter_2 }
      else s
  else s

/-- Reads both sensor lines from `pind`, updates the two counters and returns
non-zero when at least one sensor is in alarm, together with the new state. -/
def read_sensors (s : State) (pind : Nat) : Nat × State :=
  let s1 := read_sensor_1 s pind
  let s2 := read_sensor_2 s1 pind
  (if wls_alarm_1 s2 ≠ 0 ∨ wls_alarm_2 s2 ≠ 0 then 1 else 0, s2)

/-- The periodic buzzer signal. -/
def beep (s : State) : State :=
  if s.buzzer_beep_counter ≥ BUZZER_BEEP_PERIOD_THRESHOLD then
    BUZZER_TOGGLE { s with buzzer_beep_counter := 0 }
  else
    { s with buzzer_beep_counter := u8 (s.buzzer_beep_counter + 1) }

/-- Blinking of the status LED. -/
def blink_status_led (s : State) : State :=
  if s.status_led_counter ≥ STATUS_LED_BLINK_THRESHOLD then
    STATUS_LED_BLINK { s with status_led_counter := 0 }
  else
    { s with status_led_counter := u8 (s.status_led_counter + 1) }

/-- One pass of the start-up signal loop; the two `_delay_ms (100)` calls
only consume time. -/
def init_pulse (s : State) : State :=
  BUZZER_BEEP_OFF (BUZZER_BEEP_ON s)

/-- The body of `init` up to the start-up signal: pin directions, initial pin
levels, comparator off, counters zeroed.  `cli` and the watchdog calls act on
no register of `State`. -/
def init_setup (s : State) : State :=
  let s := { s with DDRB := setBit s.DDRB WLS_ALARM_LED_1_PIN }
  let s := { s with DDRB := setBit s.DDRB WLS_ALARM_LED_2_PIN }
  let s := { s with DDRB := setBit s.DDRB STATUS_LED_PIN }
  let s := { s with DDRB := setBit s.DDRB BUZZER_PIN }
  let s := { s with DDRD := clearBit s.DDRD WLS_INPUT_1_PIN }
  let s := { s with DDRD := clearBit s.DDRD WLS_INPUT_2_PIN }
  let s := { s with DDRD := setBit s.DDRD PUMP_RELAY_PIN }
  let s := WLS_ALARM_LED_1_OFF s
  let s := WLS_ALARM_LED_2_OFF s
  let s := BUZZER_BEEP_OFF s
  let s := PUMP_RELAY_ON s
  let s := { s with ACSR := setBit s.ACSR ACD }
  let s := { s with wls_alarm_counter_1 := 0 }
  let s := { s with wls_alarm_counter_2 := 0 }
  let s := { s with buzzer_beep_counter := 0 }
  { s with status_led_counter := 0 }

/-- Controller initialisation: set-up followed by three start-up pulses. -/
def init (s : State) : State :=
  init_pulse (init_pulse (init_pulse (init_setup s)))

/-- One iteration of the endless loop of `main`, reading `pind` from the
sensor port.  `wdt_reset` and the closing delay act on no register of
`State`. -/
def main_loop_body (s : State) (pind : Nat) : State :=
  let r := read_sensors s pind
  let ALARM := r.1
  let s := r.2
  let s :=
    if ALARM ≠ 0 then
      let s := PUMP_RELAY_OFF s
      let s := if wls_alarm_1 s ≠ 0 then WLS_ALARM_LED_1_ON s else s
      let s := if wls_alarm_2 s ≠ 0 then WLS_ALARM_LED_2_ON s else s
      beep s
    else s
  blink_status_led s

/-- State after `n` calls of `read_sensors`, the `k`-th call (counted from 1)
reading `pind k`, started in `s`. -/
def sensorsAfter (s : State) (pind : Nat → Nat) : Nat → State
  | 0 => s
  | n + 1 => (read_sensors (sensorsAfter s pind n) (pind (n + 1))).2

/-- State at the end of tick `n` of the main loop, tick `k` (counted from 1)
reading `pind k`, started in `s`. -/
def stateAfter (s : State) (pind : Nat → Nat) : Nat → State
  | 0 => s
  | n + 1 => main_loop_body (stateAfter s pind n) (pind (n + 1))

/-- The value of `ALARM` computed by `read_sensors` in tick `n + 1`. -/
def alarmAt (s : State) (pind : Nat → Nat) (n : Nat) : Nat :=
  (read_sensors (stateAfter s pind n) (pind (n + 1))).1

/-- Register and counter contents after a hardware reset: all zero. -/
def resetState : State :=
  { PORTB := 0, PORTD := 0, DDRB := 0, DDRD := 0, ACSR := 0,
    status_led_counter := 0, buzzer_beep_counter := 0,
    wls_alarm_counter_1 := 0, wls_alarm_counter_2 := 0 }

/-! ## Auxiliary functions used to state and prove the properties -/

/-- The counter a sensor block of `read_sensors` leaves behind, for old counter
`c` and `active` telling whether the sensor line reads high. -/
def counterStep (c : Nat) (active : Bool) : Nat :=
  if ALARM_THRESHOLD ≤ c then c else if active then c + 1 else c - 1

/-- Iteration of `counterStep` from `c`, step `k` (counted from 1) taking
`act k`. -/
def counterAfter (c : Nat) (act : Nat → Bool) : Nat → Nat
  | 0 => c
  | n + 1 => counterStep (counterAfter c act n) (act (n + 1))

/-- Number of steps `k` with `1 ≤ k ≤ n` on which `act k` holds. -/
def activeCount (act : Nat → Bool) : Nat → Nat
  | 0 => 0
  | n + 1 => activeCount act n + if act (n + 1) then 1 else 0

/-- The two sensor channels of the controller. -/
inductive Channel where
  | ch1
  | ch2
  deriving DecidableEq, Repr

/-- The debounce counter of a channel. -/
def Channel.counter : Channel → State → Nat
  | .ch1, s => s.wls_alarm_counter_1
  | .ch2, s => s.wls_alarm_counter_2

/-- The alarm test of a channel: `wls_alarm_1` or `wls_alarm_2`. -/
def Channel.alarm : Channel → State → Nat
  | .ch1, s => wls_alarm_1 s
  | .ch2, s => wls_alarm_2 s

/-- The bit of the sensor port a channel reads. -/
def Channel.inputPin : Channel → Nat
  | .ch1 => WLS_INPUT_1_PIN
  | .ch2 => WLS_INPUT_2_PIN

/-- The bit of the LED port that shows a channel. -/
def Channel.ledPin : Channel → Nat
  | .ch1 => WLS_ALARM_LED_1_PIN
  | .ch2 => WLS_ALARM_LED_2_PIN

/-- The sensor line of a channel as read in each tick from `pind`. -/
def Channel.line (ch : Channel) (pind : Nat → Nat) : Nat → Bool :=
  fun k => (pind k).testBit ch.inputPin

/-- The opposite channel. -/
def Channel.other : Channel → Channel
  | .ch1 => .ch2
  | .ch2 => .ch1

/-! ## The statements of `init` in execution order -/

/-- Value of the watchdog timeout `WDTO_1S` in the avr-libc watchdog header. -/
def WDTO_1S : Nat := 6

/-- A statement of `init`: an assignment to registers or counters, a call of
`_delay_ms`, or one of the calls that touch no part of `State`. -/
inductive Stmt where
  | cli
  | wdt_disable
  | wdt_enable (timeout : Nat)
  | assign (f : State → State)
  | delay_ms (ms : Nat)

/-- The state after a statement. -/
def Stmt.exec : Stmt → State → State
  | .assign f, s => f s
  | _, s => s

/-- What can be observed from outside while `init` runs: the buzzer pin
changing level, and the processor waiting in `_delay_ms`. -/
inductive Event where
  | buzzer (level : Bool)
  | delay (ms : Nat)
  deriving DecidableEq, Repr

/-- The events a statement produces when executed in state `s`. -/
def Stmt.events : Stmt → State → List Event
  | .assign f, s =>
    if (f s).PORTB.testBit BUZZER_PIN = s.PORTB.testBit BUZZER_PIN then []
    else [.buzzer ((f s).PORTB.testBit BUZZER_PIN)]
  | .delay_ms ms, _ => [.delay ms]
  | _, _ => []

/-- The state after a list of statements. -/
def execStmts : List Stmt → State → State
  | [], s => s
  | st :: rest, s => execStmts rest (st.exec s)

/-- The events produced by a list of statements, in order. -/
def traceStmts : List Stmt → State → List Event
  | [], _ => []
  | st :: rest, s => st.events s ++ traceStmts rest (st.exec s)

/-- The statements of `init` before the start-up signal, lines 147 to 175. -/
def init_setup_stmts : List Stmt :=
  [ .cli,
    .wdt_disable,
    .wdt_enable WDTO_1S,
    .assign (fun s => { s with DDRB := setBit s.DDRB WLS_ALARM_LED_1_PIN }),
    .assign (fun s => { s with DDRB := setBit s.DDRB WLS_ALARM_LED_2_PIN }),
    .assign (fun s => { s with DDRB := setBit s.DDRB STATUS_LED_PIN }),
    .assign (fun s => { s with DDRB := setBit s.DDRB BUZZER_PIN }),
    .assign (fun s => { s with DDRD := clearBit s.DDRD WLS_INPUT_1_PIN }),
    .assign (fun s => { s with DDRD := clearBit s.DDRD WLS_INPUT_2_PIN }),
    .assign (fun s => { s with DDRD := setBit s.DDRD PUMP_RELAY_PIN }),
    .assign WLS_ALARM_LED_1_OFF,
    .assign WLS_ALARM_LED_2_OFF,
    .assign BUZZER_BEEP_OFF,
    .assign PUMP_RELAY_ON,
    .assign (fun s => { s with ACSR := setBit s.ACSR ACD }),
    .assign (fun s => { s with wls_alarm_counter_1 := 0 }),
    .assign (fun s => { s with wls_alarm_counter_2 := 0 }),
    .assign (fun s => { s with buzzer_beep_counter := 0 }),
    .assign (fun s => { s with status_led_counter := 0 }) ]

/-- The body of the start-up signal loop, lines 180 to 183. -/
def init_pulse_stmts : List Stmt :=
  [ .assign BUZZER_BEEP_ON, .delay_ms 100, .assign BUZZER_BEEP_OFF, .delay_ms 100 ]

/-- The start-up signal loop: its body for `i = 0, 1, 2`. -/
def init_signal_stmts : List Stmt :=
  init_pulse_stmts ++ init_pulse_stmts ++ init_pulse_stmts

/-- All statements of `init`. -/
def init_stmts : List Stmt := init_setup_stmts ++ init_signal_stmts

/-- A state as an alarm leaves it: channel 2 latched, relay off, both alarm
LEDs, the status LED and the buzzer on. -/
def alarmedState : State :=
  { PORTB := 135, PORTD := 64, DDRB := 135, DDRD := 64, ACSR := 128,
    status_led_counter := 3, buzzer_beep_counter := 7,
    wls_alarm_counter_1 := 4, wls_alarm_counter_2 := 10 }

/-- As `alarmedState`, but with the status LED off and its divider at 0. -/
def alarmedLedOff : State :=
  { alarmedState with status_led_counter := 0, PORTB := 134 }

/-! ## Concrete runs used as instances -/

/-- Both sensor lines high on every tick. -/
def bothHigh : Nat → Nat := fun _ => 12

/-- Both sensor lines low on every tick. -/
def bothLow : Nat → Nat := fun _ => 0

/-- Both sensor lines high on every tick except tick 10, on which both are low. -/
def oneDropout : Nat → Nat := fun k => if k = 10 then 0 else 12

/-- Both sensor lines high on ticks 1 to 10 and low from tick 11 on. -/
def wetThenDry : Nat → Nat := fun k => if k ≤ 10 then 12 else 0

/-- Sensor line 2 high and line 1 low on every tick. -/
def line2High : Nat → Nat := fun _ => 8

/-- Sensor line 1 low on ticks 2 and 12 and high on every other tick; line 2 low. -/
def lateTrip : Nat → Nat := fun k => if k = 2 ∨ k = 12 then 0 else 4

/-- Sensor line 1 high on odd ticks and low on even ticks; line 2 low. -/
def alternating1 : Nat → Nat := fun k => if k % 2 = 1 then 4 else 0

/-! # Supporting lemmas -/

set_option maxRecDepth 20000

/-! ## Bit-level facts about the register operations -/

theorem testBit_u8 (n i : Nat) : (u8 n).testBit i = (decide (i < 8) && n.testBit i) :=
  Nat.testBit_mod_two_pow n 8 i

theorem u8_of_lt {n : Nat} (h : n < 256) : u8 n = n := Nat.mod_eq_of_lt h

theorem u8dec_of_pos {n : Nat} (h0 : 0 < n) (h : n < 256) : u8dec n = n - 1 := by
  unfold u8dec u8
  omega

theorem testBit_setBit (r pin i : Nat) :
    (setBit r pin).testBit i = (decide (i < 8) && (r.testBit i || decide (pin = i))) := by
  simp only [setBit, testBit_u8, Nat.testBit_or, Nat.one_shiftLeft, Nat.testBit_two_pow]

theorem testBit_clearBit (r pin i : Nat) :
    (clearBit r pin).testBit i = (decide (i < 8) && (r.testBit i && !decide (pin = i))) := by
  have h255 : (255 : Nat).testBit i = decide (i < 8) := Nat.testBit_two_pow_sub_one 8 i
  simp only [clearBit, testBit_u8, Nat.testBit_and, Nat.testBit_xor,
    Nat.one_shiftLeft, Nat.testBit_two_pow, h255]
  by_cases h8 : i < 8 <;> by_cases hp : pin = i <;> simp [h8, hp]

theorem testBit_toggleBit (r pin i : Nat) :
    (toggleBit r pin).testBit i = (decide (i < 8) && (r.testBit i ^^ decide (pin = i))) := by
  simp only [toggleBit, testBit_u8, Nat.testBit_xor, Nat.one_shiftLeft, Nat.testBit_two_pow]

theorem check_pin_1_ne_zero (pind : Nat) :
    CHECK_ALARM_PIN_WLS_1 pind ≠ 0 ↔ pind.testBit WLS_INPUT_1_PIN = true := by
  unfold CHECK_ALARM_PIN_WLS_1
  rw [Nat.one_shiftLeft, Nat.and_two_pow]
  cases pind.testBit WLS_INPUT_1_PIN <;> simp

theorem check_pin_2_ne_zero (pind : Nat) :
    CHECK_ALARM_PIN_WLS_2 pind ≠ 0 ↔ pind.testBit WLS_INPUT_2_PIN = true := by
  unfold CHECK_ALARM_PIN_WLS_2
  rw [Nat.one_shiftLeft, Nat.and_two_pow]
  cases pind.testBit WLS_INPUT_2_PIN <;> simp

/-! ## Closed form of one sensor block -/

theorem read_sensor_1_eq (s : State) (pind : Nat) :
    read_sensor_1 s pind =
      { s with wls_alarm_counter_1 :=
          counterStep s.wls_alarm_counter_1 (pind.testBit WLS_INPUT_1_PIN) } := by
  have hb := check_pin_1_ne_zero pind
  cases s with
  | mk pb pd db dd ac sc bc c1 c2 =>
    simp only [read_sensor_1, wls_alarm_1, counterStep, ALARM_THRESHOLD] at *
    by_cases h10 : 10 ≤ c1
    · simp [h10]
    · have hlt : c1 < 10 := by omega
      by_cases hbit : pind.testBit WLS_INPUT_1_PIN = true
      · have hc := hb.mpr hbit
        have : u8 (c1 + 1) = c1 + 1 := u8_of_lt (by omega)
        simp [h10, hlt, hbit, hc, this]
      · have hc : ¬ CHECK_ALARM_PIN_WLS_1 pind ≠ 0 := fun h => hbit (hb.mp h)
        have hbf : pind.testBit WLS_INPUT_1_PIN = false := by simpa using hbit
        by_cases h0 : c1 = 0
        · subst h0; simp [hc, hbf]
        · have hpos : c1 > 0 := by omega
          have : u8dec c1 = c1 - 1 := u8dec_of_pos hpos (by omega)
          simp [h10, hc, hbf, hpos, this]

theorem read_sensor_2_eq (s : State) (pind : Nat) :
    read_sensor_2 s pind =
      { s with wls_alarm_counter_2 :=
          counterStep s.wls_alarm_counter_2 (pind.testBit WLS_INPUT_2_PIN) } := by
  have hb := check_pin_2_ne_zero pind
  cases s with
  | mk pb pd db dd ac sc bc c1 c2 =>
    simp only [read_sensor_2, wls_alarm_2, counterStep, ALARM_THRESHOLD] at *
    by_cases h10 : 10 ≤ c2
    · simp [h10]
    · have hlt : c2 < 10 := by omega
      by_cases hbit : pind.testBit WLS_INPUT_2_PIN = true
      · have hc := hb.mpr hbit
        have : u8 (c2 + 1) = c2 + 1 := u8_of_lt (by omega)
        simp [h10, hlt, hbit, hc, this]
      · have hc : ¬ CHECK_ALARM_PIN_WLS_2 pind ≠ 0 := fun h => hbit (hb.mp h)
        have hbf : pind.testBit WLS_INPUT_2_PIN = false := by simpa using hbit
        by_cases h0 : c2 = 0
        · subst h0; simp [hc, hbf]
        · have hpos : c2 > 0 := by omega
          have : u8dec c2 = c2 - 1 := u8dec_of_pos hpos (by omega)
          simp [h10, hc, hbf, hpos, this]

theorem wls_alarm_1_ne_zero (s : State) :
    wls_alarm_1 s ≠ 0 ↔ ALARM_THRESHOLD ≤ s.wls_alarm_counter_1 := by
  unfold wls_alarm_1
  split <;> simp_all

theorem wls_alarm_2_ne_zero (s : State) :
    wls_alarm_2 s ≠ 0 ↔ ALARM_THRESHOLD ≤ s.wls_alarm_counter_2 := by
  unfold wls_alarm_2
  split <;> simp_all

theorem read_sensors_snd (s : State) (pind : Nat) :
    (read_sensors s pind).2 =
      { s with
        wls_alarm_counter_1 := counterStep s.wls_alarm_counter_1 (pind.testBit WLS_INPUT_1_PIN)
        wls_alarm_counter_2 :=
          counterStep s.wls_alarm_counter_2 (pind.testBit WLS_INPUT_2_PIN) } := by
  simp only [read_sensors, read_sensor_1_eq, read_sensor_2_eq]

theorem read_sensors_fst_ne_zero (s : State) (pind : Nat) :
    (read_sensors s pind).1 ≠ 0 ↔
      (ALARM_THRESHOLD ≤ (read_sensors s pind).2.wls_alarm_counter_1 ∨
        ALARM_THRESHOLD ≤ (read_sensors s pind).2.wls_alarm_counter_2) := by
  simp only [read_sensors, wls_alarm_1_ne_zero, wls_alarm_2_ne_zero]
  split <;> simp_all

/-! ## Effect of one loop iteration on each part of the state -/

theorem beep_counter_1 (s : State) : (beep s).wls_alarm_counter_1 = s.wls_alarm_counter_1 := by
  unfold beep BUZZER_TOGGLE; split <;> rfl

theorem beep_counter_2 (s : State) : (beep s).wls_alarm_counter_2 = s.wls_alarm_counter_2 := by
  unfold beep BUZZER_TOGGLE; split <;> rfl

theorem beep_PORTD (s : State) : (beep s).PORTD = s.PORTD := by
  unfold beep BUZZER_TOGGLE; split <;> rfl

theorem beep_status_led_counter (s : State) :
    (beep s).status_led_counter = s.status_led_counter := by
  unfold beep BUZZER_TOGGLE; split <;> rfl

theorem beep_testBit (s : State) (i : Nat) (hi : i < 7) :
    (beep s).PORTB.testBit i = s.PORTB.testBit i := by
  unfold beep BUZZER_TOGGLE
  split
  · have h8 : i < 8 := by omega
    have hne : ¬ BUZZER_PIN = i := by unfold BUZZER_PIN PINB7; omega
    simp [testBit_toggleBit, h8, hne]
  · rfl

theorem blink_counter_1 (s : State) :
    (blink_status_led s).wls_alarm_counter_1 = s.wls_alarm_counter_1 := by
  unfold blink_status_led STATUS_LED_BLINK; split <;> rfl

theorem blink_counter_2 (s : State) :
    (blink_status_led s).wls_alarm_counter_2 = s.wls_alarm_counter_2 := by
  unfold blink_status_led STATUS_LED_BLINK; split <;> rfl

theorem blink_PORTD (s : State) : (blink_status_led s).PORTD = s.PORTD := by
  unfold blink_status_led STATUS_LED_BLINK; split <;> rfl

theorem blink_testBit (s : State) (i : Nat) (h0 : 0 < i) (hi : i < 8) :
    (blink_status_led s).PORTB.testBit i = s.PORTB.testBit i := by
  unfold blink_status_led STATUS_LED_BLINK
  split
  · have hne : ¬ STATUS_LED_PIN = i := by unfold STATUS_LED_PIN PINB0; omega
    simp [testBit_toggleBit, hi, hne]
  · rfl

/-- The state in which `blink_status_led` is called in an iteration. -/
theorem main_loop_body_eq (s : State) (pind : Nat) :
    main_loop_body s pind =
      blink_status_led
        (if (read_sensors s pind).1 ≠ 0 then
          beep
            (let a := PUMP_RELAY_OFF (read_sensors s pind).2
             let b := if wls_alarm_1 a ≠ 0 then WLS_ALARM_LED_1_ON a else a
             if wls_alarm_2 b ≠ 0 then WLS_ALARM_LED_2_ON b else b)
        else (read_sensors s pind).2) := rfl

theorem main_loop_body_counter_1 (s : State) (pind : Nat) :
    (main_loop_body s pind).wls_alarm_counter_1 =
      counterStep s.wls_alarm_counter_1 (pind.testBit WLS_INPUT_1_PIN) := by
  rw [main_loop_body_eq, blink_counter_1]
  split
  · rw [beep_counter_1]
    simp only [read_sensors_snd]
    split <;> split <;> rfl
  · rw [read_sensors_snd]

theorem main_loop_body_counter_2 (s : State) (pind : Nat) :
    (main_loop_body s pind).wls_alarm_counter_2 =
      counterStep s.wls_alarm_counter_2 (pind.testBit WLS_INPUT_2_PIN) := by
  rw [main_loop_body_eq, blink_counter_2]
  split
  · rw [beep_counter_2]
    simp only [read_sensors_snd]
    split <;> split <;> rfl
  · rw [read_sensors_snd]

theorem main_loop_body_PORTD (s : State) (pind : Nat) :
    (main_loop_body s pind).PORTD =
      if (read_sensors s pind).1 ≠ 0 then setBit s.PORTD PUMP_RELAY_PIN else s.PORTD := by
  rw [main_loop_body_eq, blink_PORTD]
  split
  · rw [beep_PORTD]
    simp only [read_sensors_snd]
    split <;> split <;> rfl
  · rw [read_sensors_snd]

theorem main_loop_body_led_1 (s : State) (pind : Nat) :
    (main_loop_body s pind).PORTB.testBit WLS_ALARM_LED_1_PIN =
      (decide (ALARM_THRESHOLD ≤ (main_loop_body s pind).wls_alarm_counter_1) ||
        s.PORTB.testBit WLS_ALARM_LED_1_PIN) := by
  have hpin : WLS_ALARM_LED_1_PIN = 1 := rfl
  have halarm := read_sensors_fst_ne_zero s pind
  rw [main_loop_body_counter_1]
  rw [main_loop_body_eq, hpin, blink_testBit _ 1 (by omega) (by omega)]
  simp only [read_sensors_snd] at halarm ⊢
  split
  · rename_i ha
    rw [beep_testBit _ 1 (by omega)]
    simp only [wls_alarm_1_ne_zero, wls_alarm_2_ne_zero, PUMP_RELAY_OFF, WLS_ALARM_LED_1_ON,
      WLS_ALARM_LED_2_ON, WLS_ALARM_LED_1_PIN, WLS_ALARM_LED_2_PIN, PINB1, PINB2]
    split <;> split <;> simp_all [testBit_setBit]
  · rename_i ha
    have h1 : ¬ ALARM_THRESHOLD ≤ counterStep s.wls_alarm_counter_1
        (pind.testBit WLS_INPUT_1_PIN) := fun h => ha (halarm.mpr (Or.inl h))
    simp [h1]

theorem main_loop_body_led_2 (s : State) (pind : Nat) :
    (main_loop_body s pind).PORTB.testBit WLS_ALARM_LED_2_PIN =
      (decide (ALARM_THRESHOLD ≤ (main_loop_body s pind).wls_alarm_counter_2) ||
        s.PORTB.testBit WLS_ALARM_LED_2_PIN) := by
  have hpin : WLS_ALARM_LED_2_PIN = 2 := rfl
  have halarm := read_sensors_fst_ne_zero s pind
  rw [main_loop_body_counter_2]
  rw [main_loop_body_eq, hpin, blink_testBit _ 2 (by omega) (by omega)]
  simp only [read_sensors_snd] at halarm ⊢
  split
  · rename_i ha
    rw [beep_testBit _ 2 (by omega)]
    simp only [wls_alarm_1_ne_zero, wls_alarm_2_ne_zero, PUMP_RELAY_OFF, WLS_ALARM_LED_1_ON,
      WLS_ALARM_LED_2_ON, WLS_ALARM_LED_1_PIN, WLS_ALARM_LED_2_PIN, PINB1, PINB2]
    split <;> split <;> simp_all [testBit_setBit]
  · rename_i ha
    have h2 : ¬ ALARM_THRESHOLD ≤ counterStep s.wls_alarm_counter_2
        (pind.testBit WLS_INPUT_2_PIN) := fun h => ha (halarm.mpr (Or.inr h))
    simp [h2]

theorem main_loop_body_relay (s : State) (pind : Nat) :
    (main_loop_body s pind).PORTD.testBit PUMP_RELAY_PIN =
      (decide ((read_sensors s pind).1 ≠ 0) || s.PORTD.testBit PUMP_RELAY_PIN) := by
  rw [main_loop_body_PORTD]
  split
  · rename_i ha
    simp [testBit_setBit, PUMP_RELAY_PIN, PIND6, ha]
  · rename_i ha
    simp [ha]

theorem main_loop_body_status_led_counter (s : State) (pind : Nat) :
    (main_loop_body s pind).status_led_counter =
      if STATUS_LED_BLINK_THRESHOLD ≤ s.status_led_counter then 0
      else u8 (s.status_led_counter + 1) := by
  have hin : ∀ t : State, t.status_led_counter = s.status_led_counter →
      (blink_status_led t).status_led_counter =
        if STATUS_LED_BLINK_THRESHOLD ≤ s.status_led_counter then 0
        else u8 (s.status_led_counter + 1) := by
    intro t ht
    unfold blink_status_led STATUS_LED_BLINK
    rw [ht]
    split <;> rfl
  rw [main_loop_body_eq]
  apply hin
  split
  · rw [beep_status_led_counter]
    simp only [read_sensors_snd]
    split <;> split <;> rfl
  · rw [read_sensors_snd]

theorem main_loop_body_status_led (s : State) (pind : Nat) :
    (main_loop_body s pind).PORTB.testBit STATUS_LED_PIN =
      (s.PORTB.testBit STATUS_LED_PIN ^^
        decide (STATUS_LED_BLINK_THRESHOLD ≤ s.status_led_counter)) := by
  have hin : ∀ t : State, t.status_led_counter = s.status_led_counter →
      t.PORTB.testBit STATUS_LED_PIN = s.PORTB.testBit STATUS_LED_PIN →
      (blink_status_led t).PORTB.testBit STATUS_LED_PIN =
        (s.PORTB.testBit STATUS_LED_PIN ^^
          decide (STATUS_LED_BLINK_THRESHOLD ≤ s.status_led_counter)) := by
    intro t ht hb
    unfold blink_status_led STATUS_LED_BLINK
    rw [ht]
    split
    · rename_i h
      have h5 : STATUS_LED_BLINK_THRESHOLD ≤ s.status_led_counter := h
      simp only [testBit_toggleBit, h5, decide_True, Bool.xor_true]
      rw [hb]
      simp [STATUS_LED_PIN, PINB0, -Nat.testBit_zero]
    · rename_i h
      have h5 : ¬ STATUS_LED_BLINK_THRESHOLD ≤ s.status_led_counter := h
      simp only [h5, decide_False, Bool.xor_false]
      exact hb
  rw [main_loop_body_eq]
  have hpin : STATUS_LED_PIN = 0 := rfl
  split
  · apply hin
    · rw [beep_status_led_counter]
      simp only [read_sensors_snd]
      split <;> split <;> rfl
    · rw [hpin, beep_testBit _ 0 (by omega)]
      simp only [read_sensors_snd, PUMP_RELAY_OFF, WLS_ALARM_LED_1_ON,
        WLS_ALARM_LED_2_ON, WLS_ALARM_LED_1_PIN, WLS_ALARM_LED_2_PIN, PINB1, PINB2]
      split <;> split <;> simp [testBit_setBit, -Nat.testBit_zero]
  · apply hin <;> rw [read_sensors_snd]

/-! ## Runs of the sensor reader and of the main loop -/

theorem sensorsAfter_counter_1 (s : State) (pind : Nat → Nat) (n : Nat) :
    (sensorsAfter s pind n).wls_alarm_counter_1 =
      counterAfter s.wls_alarm_counter_1 (fun k => (pind k).testBit WLS_INPUT_1_PIN) n := by
  induction n with
  | zero => rfl
  | succ n ih => simp only [sensorsAfter, counterAfter, read_sensors_snd, ih]

theorem sensorsAfter_counter_2 (s : State) (pind : Nat → Nat) (n : Nat) :
    (sensorsAfter s pind n).wls_alarm_counter_2 =
      counterAfter s.wls_alarm_counter_2 (fun k => (pind k).testBit WLS_INPUT_2_PIN) n := by
  induction n with
  | zero => rfl
  | succ n ih => simp only [sensorsAfter, counterAfter, read_sensors_snd, ih]

theorem stateAfter_counter_1 (s : State) (pind : Nat → Nat) (n : Nat) :
    (stateAfter s pind n).wls_alarm_counter_1 =
      counterAfter s.wls_alarm_counter_1 (fun k => (pind k).testBit WLS_INPUT_1_PIN) n := by
  induction n with
  | zero => rfl
  | succ n ih => simp only [stateAfter, counterAfter, main_loop_body_counter_1, ih]

theorem stateAfter_counter_2 (s : State) (pind : Nat → Nat) (n : Nat) :
    (stateAfter s pind n).wls_alarm_counter_2 =
      counterAfter s.wls_alarm_counter_2 (fun k => (pind k).testBit WLS_INPUT_2_PIN) n := by
  induction n with
  | zero => rfl
  | succ n ih => simp only [stateAfter, counterAfter, main_loop_body_counter_2, ih]

/-! ## The saturating counter -/

theorem counterStep_latched {c : Nat} (h : ALARM_THRESHOLD ≤ c) (b : Bool) :
    counterStep c b = c := by
  simp [counterStep, h]

theorem counterStep_le {c : Nat} (h : c ≤ ALARM_THRESHOLD) (b : Bool) :
    counterStep c b ≤ ALARM_THRESHOLD := by
  unfold counterStep ALARM_THRESHOLD at *
  split
  · exact h
  · split <;> omega

theorem counterStep_mono_alarm {c : Nat} (h : ALARM_THRESHOLD ≤ c) (b : Bool) :
    ALARM_THRESHOLD ≤ counterStep c b := by
  rw [counterStep_latched h]; exact h

theorem counterAfter_latched {c : Nat} (h : ALARM_THRESHOLD ≤ c) (act : Nat → Bool) (n : Nat) :
    counterAfter c act n = c := by
  induction n with
  | zero => rfl
  | succ n ih => simp only [counterAfter, ih, counterStep_latched h]

theorem counterAfter_le {c : Nat} (h : c ≤ ALARM_THRESHOLD) (act : Nat → Bool) (n : Nat) :
    counterAfter c act n ≤ ALARM_THRESHOLD := by
  induction n with
  | zero => exact h
  | succ n ih => exact counterStep_le ih _

theorem counterAfter_add (c : Nat) (act : Nat → Bool) (n m : Nat) :
    counterAfter c act (n + m) = counterAfter (counterAfter c act n) (fun k => act (n + k)) m := by
  induction m with
  | zero => rfl
  | succ m ih =>
    show counterStep (counterAfter c act (n + m)) (act (n + m + 1)) = _
    rw [ih]
    rfl

theorem counterAfter_alarm_mono {c : Nat} {act : Nat → Bool} {n : Nat}
    (h : ALARM_THRESHOLD ≤ counterAfter c act n) (m : Nat) :
    ALARM_THRESHOLD ≤ counterAfter c act (n + m) := by
  rw [counterAfter_add, counterAfter_latched h]; exact h

theorem counterAfter_all_active (act : Nat → Bool) (n : Nat)
    (h : ∀ k, 1 ≤ k → k ≤ n → act k = true) :
    counterAfter 0 act n = min n ALARM_THRESHOLD := by
  induction n with
  | zero => rfl
  | succ n ih =>
    have ih1 := ih (fun k h1 hk => h k h1 (by omega))
    have ha := h (n + 1) (by omega) (by omega)
    simp only [counterAfter, ih1, ha, counterStep, ALARM_THRESHOLD, if_true]
    split <;> omega

theorem counterAfter_all_inactive (act : Nat → Bool) (n : Nat)
    (h : ∀ k, 1 ≤ k → k ≤ n → act k = false) :
    counterAfter 0 act n = 0 := by
  induction n with
  | zero => rfl
  | succ n ih =>
    have ih1 := ih (fun k h1 hk => h k h1 (by omega))
    have ha := h (n + 1) (by omega) (by omega)
    simp [counterAfter, ih1, ha, counterStep, ALARM_THRESHOLD]

theorem counterAfter_alternating (act : Nat → Bool) (n : Nat)
    (h : ∀ k, 1 ≤ k → k < n → act (k + 1) = !act k) :
    counterAfter 0 act n = 0 ∨ (counterAfter 0 act n = 1 ∧ 1 ≤ n ∧ act n = true) := by
  induction n with
  | zero => exact Or.inl rfl
  | succ n ih =>
    rcases ih (fun k h1 hk => h k h1 (by omega)) with h0 | ⟨h1, hn, hact⟩
    · simp only [counterAfter, h0, counterStep, ALARM_THRESHOLD]
      cases hb : act (n + 1) <;> simp
    · have hnext := h n hn (by omega)
      rw [hact] at hnext
      simp [counterAfter, h1, counterStep, ALARM_THRESHOLD, hnext]

theorem activeCount_le (act : Nat → Bool) (n : Nat) : activeCount act n ≤ n := by
  induction n with
  | zero => exact Nat.le_refl 0
  | succ n ih =>
    simp only [activeCount]
    split <;> omega

theorem counterAfter_le_activeCount (act : Nat → Bool) (n : Nat) :
    counterAfter 0 act n ≤ activeCount act n := by
  induction n with
  | zero => exact Nat.le_refl 0
  | succ n ih =>
    simp only [counterAfter, activeCount, counterStep, ALARM_THRESHOLD]
    cases act (n + 1) <;> simp <;> split <;> omega

theorem counterAfter_trip {c : Nat} {act : Nat → Bool} {n : Nat}
    (h0 : counterAfter c act n < ALARM_THRESHOLD)
    (h1 : ALARM_THRESHOLD ≤ counterAfter c act (n + 1)) :
    act (n + 1) = true ∧ counterAfter c act n = 9 ∧ counterAfter c act (n + 1) = 10 := by
  simp only [counterAfter, counterStep, ALARM_THRESHOLD] at *
  have hn : ¬ 10 ≤ counterAfter c act n := by omega
  rw [if_neg hn] at h1 ⊢
  cases hb : act (n + 1)
  · rw [hb] at h1; simp at h1; omega
  · rw [hb] at h1; simp at h1 ⊢; omega

theorem counterAfter_nine_prev {c : Nat} {act : Nat → Bool} {n : Nat}
    (h : counterAfter c act (n + 1) = 9) :
    act (n + 1) = true := by
  simp only [counterAfter, counterStep, ALARM_THRESHOLD] at *
  cases hb : act (n + 1)
  · simp [hb] at h; split at h <;> omega
  · rfl

/-! ## Channels -/

theorem Channel.alarm_ne_zero (ch : Channel) (s : State) :
    ch.alarm s ≠ 0 ↔ ALARM_THRESHOLD ≤ ch.counter s := by
  cases ch
  · exact wls_alarm_1_ne_zero s
  · exact wls_alarm_2_ne_zero s

theorem Channel.alarm_eq_zero (ch : Channel) (s : State) :
    ch.alarm s = 0 ↔ ch.counter s < ALARM_THRESHOLD := by
  have h := ch.alarm_ne_zero s
  constructor
  · intro h0
    by_contra hc
    exact (h.mpr (by omega)) h0
  · intro hlt
    by_contra hc
    have := h.mp hc
    omega

theorem Channel.counter_read_sensors (ch : Channel) (s : State) (pind : Nat) :
    ch.counter (read_sensors s pind).2 =
      counterStep (ch.counter s) (pind.testBit ch.inputPin) := by
  cases ch <;> simp only [read_sensors_snd, Channel.counter, Channel.inputPin]

theorem Channel.counter_main_loop_body (ch : Channel) (s : State) (pind : Nat) :
    ch.counter (main_loop_body s pind) =
      counterStep (ch.counter s) (pind.testBit ch.inputPin) := by
  cases ch
  · exact main_loop_body_counter_1 s pind
  · exact main_loop_body_counter_2 s pind

theorem Channel.counter_sensorsAfter (ch : Channel) (s : State) (pind : Nat → Nat) (n : Nat) :
    ch.counter (sensorsAfter s pind n) = counterAfter (ch.counter s) (ch.line pind) n := by
  cases ch
  · exact sensorsAfter_counter_1 s pind n
  · exact sensorsAfter_counter_2 s pind n

theorem Channel.counter_stateAfter (ch : Channel) (s : State) (pind : Nat → Nat) (n : Nat) :
    ch.counter (stateAfter s pind n) = counterAfter (ch.counter s) (ch.line pind) n := by
  cases ch
  · exact stateAfter_counter_1 s pind n
  · exact stateAfter_counter_2 s pind n

theorem Channel.led_main_loop_body (ch : Channel) (s : State) (pind : Nat) :
    (main_loop_body s pind).PORTB.testBit ch.ledPin =
      (decide (ALARM_THRESHOLD ≤ ch.counter (main_loop_body s pind)) ||
        s.PORTB.testBit ch.ledPin) := by
  cases ch
  · exact main_loop_body_led_1 s pind
  · exact main_loop_body_led_2 s pind

theorem read_sensors_fst_iff_channel (s : State) (pind : Nat) :
    (read_sensors s pind).1 ≠ 0 ↔
      ∃ ch : Channel, ALARM_THRESHOLD ≤ ch.counter (main_loop_body s pind) := by
  rw [read_sensors_fst_ne_zero]
  constructor
  · rintro (h | h)
    · exact ⟨.ch1, by rw [Channel.counter_main_loop_body]; simpa [read_sensors_snd] using h⟩
    · exact ⟨.ch2, by rw [Channel.counter_main_loop_body]; simpa [read_sensors_snd] using h⟩
  · rintro ⟨ch, h⟩
    rw [Channel.counter_main_loop_body] at h
    cases ch
    · exact Or.inl (by simpa [read_sensors_snd] using h)
    · exact Or.inr (by simpa [read_sensors_snd] using h)

theorem alarmAt_ne_zero (s : State) (pind : Nat → Nat) (n : Nat) :
    alarmAt s pind n ≠ 0 ↔
      ∃ ch : Channel, ALARM_THRESHOLD ≤ ch.counter (stateAfter s pind (n + 1)) :=
  read_sensors_fst_iff_channel (stateAfter s pind n) (pind (n + 1))

theorem stateAfter_relay_succ (s : State) (pind : Nat → Nat) (n : Nat) :
    (stateAfter s pind (n + 1)).PORTD.testBit PUMP_RELAY_PIN =
      (decide (alarmAt s pind n ≠ 0) || (stateAfter s pind n).PORTD.testBit PUMP_RELAY_PIN) :=
  main_loop_body_relay (stateAfter s pind n) (pind (n + 1))

/-! ## The state left by `init` -/

theorem init_counter (s : State) (ch : Channel) : ch.counter (init s) = 0 := by
  cases ch <;> rfl

theorem init_status_led_counter (s : State) : (init s).status_led_counter = 0 := rfl

theorem init_buzzer_beep_counter (s : State) : (init s).buzzer_beep_counter = 0 := rfl

theorem init_relay (s : State) : (init s).PORTD.testBit PUMP_RELAY_PIN = false := by
  show (clearBit s.PORTD PUMP_RELAY_PIN).testBit PUMP_RELAY_PIN = false
  simp [testBit_clearBit]

theorem init_led (s : State) (ch : Channel) : (init s).PORTB.testBit ch.ledPin = false := by
  cases ch <;>
    simp [init, init_pulse, init_setup, BUZZER_BEEP_OFF, BUZZER_BEEP_ON, WLS_ALARM_LED_1_OFF,
      WLS_ALARM_LED_2_OFF, PUMP_RELAY_ON, testBit_clearBit, testBit_setBit, Channel.ledPin,
      WLS_ALARM_LED_1_PIN, WLS_ALARM_LED_2_PIN, BUZZER_PIN, PINB1, PINB2, PINB7]

theorem init_buzzer (s : State) : (init s).PORTB.testBit BUZZER_PIN = false := by
  show (clearBit _ BUZZER_PIN).testBit BUZZER_PIN = false
  simp [testBit_clearBit]

/-! ## Invariants of the main loop -/

theorem counter_alarm_succ (ch : Channel) (s : State) (pind : Nat → Nat) (n : Nat)
    (h : ALARM_THRESHOLD ≤ ch.counter (stateAfter s pind n)) :
    ALARM_THRESHOLD ≤ ch.counter (stateAfter s pind (n + 1)) := by
  rw [Channel.counter_stateAfter] at h ⊢
  exact counterAfter_alarm_mono h 1

theorem relay_imp_latched (s : State) (pind : Nat → Nat)
    (h0 : s.PORTD.testBit PUMP_RELAY_PIN = false) (n : Nat) :
    (stateAfter s pind n).PORTD.testBit PUMP_RELAY_PIN = true →
      ∃ ch : Channel, ALARM_THRESHOLD ≤ ch.counter (stateAfter s pind n) := by
  induction n with
  | zero =>
    intro h
    rw [show stateAfter s pind 0 = s from rfl, h0] at h
    exact absurd h (by decide)
  | succ n ih =>
    intro h
    rw [stateAfter_relay_succ, Bool.or_eq_true, decide_eq_true_eq] at h
    rcases h with h | h
    · exact (alarmAt_ne_zero s pind n).mp h
    · obtain ⟨ch, hch⟩ := ih h
      exact ⟨ch, counter_alarm_succ ch s pind n hch⟩

theorem led_imp_latched (ch : Channel) (s : State) (pind : Nat → Nat)
    (h0 : s.PORTB.testBit ch.ledPin = false) (n : Nat) :
    (stateAfter s pind n).PORTB.testBit ch.ledPin = true →
      ALARM_THRESHOLD ≤ ch.counter (stateAfter s pind n) := by
  induction n with
  | zero =>
    intro h
    rw [show stateAfter s pind 0 = s from rfl, h0] at h
    exact absurd h (by decide)
  | succ n ih =>
    intro h
    rw [show stateAfter s pind (n + 1) = main_loop_body (stateAfter s pind n) (pind (n + 1))
      from rfl, Channel.led_main_loop_body, Bool.or_eq_true, decide_eq_true_eq] at h
    rcases h with h | h
    · exact h
    · exact counter_alarm_succ ch s pind n (ih h)

theorem led_of_latched_succ (ch : Channel) (s : State) (pind : Nat → Nat) (n : Nat)
    (h : ALARM_THRESHOLD ≤ ch.counter (stateAfter s pind (n + 1))) :
    (stateAfter s pind (n + 1)).PORTB.testBit ch.ledPin = true := by
  rw [show stateAfter s pind (n + 1) = main_loop_body (stateAfter s pind n) (pind (n + 1))
    from rfl] at h ⊢
  rw [Channel.led_main_loop_body, Bool.or_eq_true, decide_eq_true_eq]
  exact Or.inl h

theorem status_led_counter_after_init (s0 : State) (pind : Nat → Nat) (n : Nat) :
    (stateAfter (init s0) pind n).status_led_counter = n % 6 := by
  induction n with
  | zero => rfl
  | succ n ih =>
    rw [show stateAfter (init s0) pind (n + 1) =
      main_loop_body (stateAfter (init s0) pind n) (pind (n + 1)) from rfl,
      main_loop_body_status_led_counter, ih]
    unfold STATUS_LED_BLINK_THRESHOLD
    split
    · omega
    · rw [u8_of_lt (by omega)]; omega

/-! # Properties of the specification -/

/-- C1: one call of `read_sensors` leaves a channel's counter `c` unchanged when
`c ≥ 10`; otherwise it leaves `min (c + 1) 10` when the channel's input bit is
set, and `c - 1`, or `0` when `c = 0`, when the bit is clear. -/
theorem C1_debounce_step (ch : Channel) (s : State) (pind : Nat) :
    ch.counter (read_sensors s pind).2 =
      if ALARM_THRESHOLD ≤ ch.counter s then ch.counter s
      else if pind.testBit ch.inputPin = true then min (ch.counter s + 1) ALARM_THRESHOLD
      else if ch.counter s = 0 then 0 else ch.counter s - 1 := by
  rw [Channel.counter_read_sensors]
  unfold counterStep ALARM_THRESHOLD
  split
  · rfl
  · cases pind.testBit ch.inputPin
    · simp only [Bool.false_eq_true, if_false]
      split <;> omega
    · simp only [if_true]
      omega

/-- C2: once a channel's counter has reached `ALARM_THRESHOLD`, any number of
further `read_sensors` calls with arbitrary inputs leaves that counter as it
is and the channel's alarm test non-zero. -/
theorem C2_latch (ch : Channel) (s : State) (pind : Nat → Nat) (n : Nat)
    (h : ALARM_THRESHOLD ≤ ch.counter s) :
    ch.counter (sensorsAfter s pind n) = ch.counter s ∧
      ch.alarm (sensorsAfter s pind n) ≠ 0 := by
  have hc : ch.counter (sensorsAfter s pind n) = ch.counter s := by
    rw [Channel.counter_sensorsAfter, counterAfter_latched h]
  exact ⟨hc, (ch.alarm_ne_zero _).mpr (by rw [hc]; exact h)⟩

/-- Instance of C2: channel 2 latched by ten wet ticks, then seven dry reads. -/
theorem C2_latch_witness :
    ALARM_THRESHOLD ≤ Channel.ch2.counter (stateAfter (init resetState) bothHigh 10) ∧
      (Channel.ch2.counter (sensorsAfter (stateAfter (init resetState) bothHigh 10) bothLow 7) =
          Channel.ch2.counter (stateAfter (init resetState) bothHigh 10) ∧
        Channel.ch2.alarm (sensorsAfter (stateAfter (init resetState) bothHigh 10) bothLow 7)
          ≠ 0) :=
  ⟨by decide, C2_latch .ch2 (stateAfter (init resetState) bothHigh 10) bothLow 7 (by decide)⟩

/-- C3: from a state with both sensor counters 0, after any number of
`read_sensors` calls, or of whole main-loop ticks, with arbitrary inputs, both
counters are at most `ALARM_THRESHOLD`; the decrement never wraps to 255. -/
theorem C3_saturation (s : State) (pind : Nat → Nat) (n : Nat)
    (h1 : s.wls_alarm_counter_1 = 0) (h2 : s.wls_alarm_counter_2 = 0) :
    ((sensorsAfter s pind n).wls_alarm_counter_1 ≤ ALARM_THRESHOLD ∧
        (sensorsAfter s pind n).wls_alarm_counter_2 ≤ ALARM_THRESHOLD) ∧
      ((stateAfter s pind n).wls_alarm_counter_1 ≤ ALARM_THRESHOLD ∧
        (stateAfter s pind n).wls_alarm_counter_2 ≤ ALARM_THRESHOLD) := by
  rw [sensorsAfter_counter_1, sensorsAfter_counter_2, stateAfter_counter_1,
    stateAfter_counter_2, h1, h2]
  have h0 : 0 ≤ ALARM_THRESHOLD := Nat.zero_le _
  exact ⟨⟨counterAfter_le h0 _ n, counterAfter_le h0 _ n⟩,
    ⟨counterAfter_le h0 _ n, counterAfter_le h0 _ n⟩⟩

/-- Instance of C3: the state left by `init`, 300 ticks with both lines high. -/
theorem C3_saturation_witness :
    (init resetState).wls_alarm_counter_1 = 0 ∧ (init resetState).wls_alarm_counter_2 = 0 ∧
      (((sensorsAfter (init resetState) bothHigh 300).wls_alarm_counter_1 ≤ ALARM_THRESHOLD ∧
          (sensorsAfter (init resetState) bothHigh 300).wls_alarm_counter_2 ≤ ALARM_THRESHOLD) ∧
        ((stateAfter (init resetState) bothHigh 300).wls_alarm_counter_1 ≤ ALARM_THRESHOLD ∧
          (stateAfter (init resetState) bothHigh 300).wls_alarm_counter_2 ≤ ALARM_THRESHOLD)) :=
  ⟨rfl, rfl, C3_saturation (init resetState) bothHigh 300 rfl rfl⟩

/-- C4, as stated, fails: with line 1 high on ticks 1 to 9, low on tick 10 and
high on ticks 11 and 12, channel 1 starts with counter 0, is not alarmed after
tick 11 and is alarmed after tick 12, yet its input was not active on each of
the ten ticks 3 to 12. -/
theorem C4_counterexample :
    Channel.ch1.counter (init resetState) = 0 ∧
      Channel.ch1.alarm (stateAfter (init resetState) oneDropout 11) = 0 ∧
      Channel.ch1.alarm (stateAfter (init resetState) oneDropout 12) ≠ 0 ∧
      ¬ ∀ k, 12 - 9 ≤ k → k ≤ 12 → (oneDropout k).testBit Channel.ch1.inputPin = true :=
  ⟨by decide, by decide, by decide,
    fun h => absurd (h 10 (by decide) (by decide)) (by decide)⟩

/-- C4, amended: started with counter 0, if a channel is not alarmed after tick
`n` and alarmed after tick `n + 1`, then its counter went from 9 to 10 in tick
`n + 1`, its input was active on ticks `n` and `n + 1`, `n + 1 ≥ 10`, and its
input was active on at least 10 of the ticks `1 .. n + 1`. -/
theorem C4_alarm_needs_ten_active (ch : Channel) (s : State) (pind : Nat → Nat) (n : Nat)
    (h0 : ch.counter s = 0)
    (hn : ch.alarm (stateAfter s pind n) = 0)
    (hn1 : ch.alarm (stateAfter s pind (n + 1)) ≠ 0) :
    ch.counter (stateAfter s pind n) = 9 ∧
      ch.counter (stateAfter s pind (n + 1)) = 10 ∧
      (pind n).testBit ch.inputPin = true ∧
      (pind (n + 1)).testBit ch.inputPin = true ∧
      10 ≤ n + 1 ∧
      10 ≤ activeCount (ch.line pind) (n + 1) := by
  rw [Channel.alarm_eq_zero, Channel.counter_stateAfter, h0] at hn
  rw [Channel.alarm_ne_zero, Channel.counter_stateAfter, h0] at hn1
  rw [Channel.counter_stateAfter, Channel.counter_stateAfter, h0]
  obtain ⟨ha, h9, h10⟩ := counterAfter_trip hn hn1
  have hcnt := counterAfter_le_activeCount (ch.line pind) (n + 1)
  have hle := activeCount_le (ch.line pind) (n + 1)
  refine ⟨h9, h10, ?_, ha, by omega, by omega⟩
  cases n with
  | zero => exact absurd h9 (show (0 : Nat) ≠ 9 by decide)
  | succ m => exact counterAfter_nine_prev h9

/-- Instance of the amended C4: line 1 low on tick 10 only, tripping on tick 12. -/
theorem C4_alarm_needs_ten_active_witness :
    Channel.ch1.counter (init resetState) = 0 ∧
      Channel.ch1.alarm (stateAfter (init resetState) oneDropout 11) = 0 ∧
      Channel.ch1.alarm (stateAfter (init resetState) oneDropout (11 + 1)) ≠ 0 ∧
      (Channel.ch1.counter (stateAfter (init resetState) oneDropout 11) = 9 ∧
        Channel.ch1.counter (stateAfter (init resetState) oneDropout (11 + 1)) = 10 ∧
        (oneDropout 11).testBit Channel.ch1.inputPin = true ∧
        (oneDropout (11 + 1)).testBit Channel.ch1.inputPin = true ∧
        10 ≤ 11 + 1 ∧
        10 ≤ activeCount (Channel.ch1.line oneDropout) (11 + 1)) :=
  ⟨by decide, by decide, by decide,
    C4_alarm_needs_ten_active .ch1 (init resetState) oneDropout 11
      (by decide) (by decide) (by decide)⟩

/-- C5: in a run started in the state left by `init`, at the end of every tick
the relay pin (bit 6 of `PORTD`) is set exactly when the alarm value computed
by `read_sensors` in that tick is non-zero, and clear exactly when it is zero. -/
theorem C5_relay_iff_alarm (s0 : State) (pind : Nat → Nat) (n : Nat) :
    ((stateAfter (init s0) pind (n + 1)).PORTD.testBit PUMP_RELAY_PIN = true ↔
        alarmAt (init s0) pind n ≠ 0) ∧
      ((stateAfter (init s0) pind (n + 1)).PORTD.testBit PUMP_RELAY_PIN = false ↔
        alarmAt (init s0) pind n = 0) := by
  have key : (stateAfter (init s0) pind (n + 1)).PORTD.testBit PUMP_RELAY_PIN = true ↔
      alarmAt (init s0) pind n ≠ 0 := by
    constructor
    · intro h
      exact (alarmAt_ne_zero _ pind n).mpr
        (relay_imp_latched (init s0) pind (init_relay s0) (n + 1) h)
    · intro h
      rw [stateAfter_relay_succ, Bool.or_eq_true, decide_eq_true_eq]
      exact Or.inl h
  refine ⟨key, ?_⟩
  rw [← Bool.not_eq_true, key]
  exact not_not

/-- C6: if the alarm value computed in some tick is non-zero, then in that tick
and in every later tick, whatever the sensor inputs, the alarm value computed
by `read_sensors` is non-zero and the relay pin (bit 6 of `PORTD`) is set at
the end of the tick. -/
theorem C6_no_auto_recovery (s : State) (pind : Nat → Nat) (n m : Nat)
    (h : alarmAt s pind n ≠ 0) :
    alarmAt s pind (n + m) ≠ 0 ∧
      (stateAfter s pind (n + m + 1)).PORTD.testBit PUMP_RELAY_PIN = true := by
  have ha : alarmAt s pind (n + m) ≠ 0 := by
    obtain ⟨ch, hch⟩ := (alarmAt_ne_zero s pind n).mp h
    refine (alarmAt_ne_zero s pind (n + m)).mpr ⟨ch, ?_⟩
    rw [Channel.counter_stateAfter] at hch ⊢
    have := counterAfter_alarm_mono hch m
    rwa [show n + 1 + m = n + m + 1 by omega] at this
  refine ⟨ha, ?_⟩
  rw [stateAfter_relay_succ, Bool.or_eq_true, decide_eq_true_eq]
  exact Or.inl ha

/-- Instance of C6: ten wet ticks after `init`, then fifty dry ticks. -/
theorem C6_no_auto_recovery_witness :
    alarmAt (init resetState) wetThenDry 9 ≠ 0 ∧
      (alarmAt (init resetState) wetThenDry (9 + 50) ≠ 0 ∧
        (stateAfter (init resetState) wetThenDry (9 + 50 + 1)).PORTD.testBit PUMP_RELAY_PIN
          = true) :=
  ⟨by decide, C6_no_auto_recovery (init resetState) wetThenDry 9 50 (by decide)⟩

/-- C7: in a run started in the state left by `init`, if a channel's input is
active on every tick up to `n`, its counter after tick `n` is `min n 10`; the
channel is not alarmed while `n < 10` and from tick 10 on it is alarmed, the
relay pin is set and the channel's LED bit is set; if the other channel's
input was inactive on every tick up to `n`, the other LED bit is clear. -/
theorem C7_continuous_input (ch : Channel) (s0 : State) (pind : Nat → Nat) (n : Nat)
    (h : ∀ k, 1 ≤ k → k ≤ n → (pind k).testBit ch.inputPin = true) :
    ch.counter (stateAfter (init s0) pind n) = min n ALARM_THRESHOLD ∧
      (n < 10 → ch.alarm (stateAfter (init s0) pind n) = 0) ∧
      (10 ≤ n →
        ch.alarm (stateAfter (init s0) pind n) ≠ 0 ∧
        (stateAfter (init s0) pind n).PORTD.testBit PUMP_RELAY_PIN = true ∧
        (stateAfter (init s0) pind n).PORTB.testBit ch.ledPin = true) ∧
      ((∀ k, 1 ≤ k → k ≤ n → (pind k).testBit ch.other.inputPin = false) →
        (stateAfter (init s0) pind n).PORTB.testBit ch.other.ledPin = false) := by
  have hc : ch.counter (stateAfter (init s0) pind n) = min n ALARM_THRESHOLD := by
    rw [Channel.counter_stateAfter, init_counter]
    exact counterAfter_all_active (ch.line pind) n h
  refine ⟨hc, ?_, ?_, ?_⟩
  · intro hlt
    rw [Channel.alarm_eq_zero, hc]
    unfold ALARM_THRESHOLD
    omega
  · intro hge
    have h10 : ALARM_THRESHOLD ≤ ch.counter (stateAfter (init s0) pind n) := by
      rw [hc]; unfold ALARM_THRESHOLD; omega
    obtain ⟨m, rfl⟩ : ∃ m, n = m + 1 := ⟨n - 1, by omega⟩
    refine ⟨(ch.alarm_ne_zero _).mpr h10, ?_, led_of_latched_succ ch _ pind m h10⟩
    rw [stateAfter_relay_succ, Bool.or_eq_true, decide_eq_true_eq]
    exact Or.inl ((alarmAt_ne_zero _ pind m).mpr ⟨ch, h10⟩)
  · intro ho
    have hz : ch.other.counter (stateAfter (init s0) pind n) = 0 := by
      rw [Channel.counter_stateAfter, init_counter]
      exact counterAfter_all_inactive (ch.other.line pind) n ho
    cases hb : (stateAfter (init s0) pind n).PORTB.testBit ch.other.ledPin
    · rfl
    · have := led_imp_latched ch.other (init s0) pind (init_led s0 ch.other) n hb
      rw [hz] at this
      exact absurd this (by decide)

/-- Instance of C7: Scenario B, sensor line 2 alone high for ten ticks. -/
theorem C7_continuous_input_witness :
    (∀ k, 1 ≤ k → k ≤ 10 → (line2High k).testBit Channel.ch2.inputPin = true) ∧
      (Channel.ch2.counter (stateAfter (init resetState) line2High 10)
          = min 10 ALARM_THRESHOLD ∧
        (10 < 10 → Channel.ch2.alarm (stateAfter (init resetState) line2High 10) = 0) ∧
        (10 ≤ 10 →
          Channel.ch2.alarm (stateAfter (init resetState) line2High 10) ≠ 0 ∧
          (stateAfter (init resetState) line2High 10).PORTD.testBit PUMP_RELAY_PIN = true ∧
          (stateAfter (init resetState) line2High 10).PORTB.testBit Channel.ch2.ledPin
            = true) ∧
        ((∀ k, 1 ≤ k → k ≤ 10 →
            (line2High k).testBit Channel.ch2.other.inputPin = false) →
          (stateAfter (init resetState) line2High 10).PORTB.testBit Channel.ch2.other.ledPin
            = false)) :=
  ⟨fun _ _ _ => show Nat.testBit 8 3 = true by decide,
    C7_continuous_input .ch2 (init resetState) line2High 10
      (fun _ _ _ => show Nat.testBit 8 3 = true by decide)⟩

theorem alternating1_flips (k : Nat) :
    (alternating1 (k + 1)).testBit Channel.ch1.inputPin =
      !(alternating1 k).testBit Channel.ch1.inputPin := by
  unfold alternating1
  rcases Nat.mod_two_eq_zero_or_one k with h | h
  · have h1 : (k + 1) % 2 = 1 := by omega
    rw [if_pos h1, if_neg (by omega)]
    decide
  · have h1 : ¬ (k + 1) % 2 = 1 := by omega
    rw [if_neg h1, if_pos h]
    decide

theorem alternating1_line2 (k : Nat) :
    (alternating1 k).testBit Channel.ch1.other.inputPin = false := by
  unfold alternating1
  split <;> decide

/-- C8: in a run started in the state left by `init`, if a channel's input
changes level from every tick to the next up to tick `n` and the other
channel's input is inactive, then after tick `n` the channel's counter is 0 or
1, below `ALARM_THRESHOLD`, the channel is not alarmed and the relay pin is
clear. -/
theorem C8_alternating_input (ch : Channel) (s0 : State) (pind : Nat → Nat) (n : Nat)
    (halt : ∀ k, 1 ≤ k → k < n →
      (pind (k + 1)).testBit ch.inputPin = !(pind k).testBit ch.inputPin)
    (hother : ∀ k, 1 ≤ k → k ≤ n → (pind k).testBit ch.other.inputPin = false) :
    (ch.counter (stateAfter (init s0) pind n) = 0 ∨
        ch.counter (stateAfter (init s0) pind n) = 1) ∧
      ch.counter (stateAfter (init s0) pind n) < ALARM_THRESHOLD ∧
      ch.alarm (stateAfter (init s0) pind n) = 0 ∧
      (stateAfter (init s0) pind n).PORTD.testBit PUMP_RELAY_PIN = false := by
  have hc : ch.counter (stateAfter (init s0) pind n) = 0 ∨
      ch.counter (stateAfter (init s0) pind n) = 1 := by
    rw [Channel.counter_stateAfter, init_counter]
    rcases counterAfter_alternating (ch.line pind) n halt with h | ⟨h, _, _⟩
    · exact Or.inl h
    · exact Or.inr h
  have hlt : ch.counter (stateAfter (init s0) pind n) < ALARM_THRESHOLD := by
    unfold ALARM_THRESHOLD
    omega
  have hz : ch.other.counter (stateAfter (init s0) pind n) = 0 := by
    rw [Channel.counter_stateAfter, init_counter]
    exact counterAfter_all_inactive (ch.other.line pind) n hother
  refine ⟨hc, hlt, (ch.alarm_eq_zero _).mpr hlt, ?_⟩
  cases hb : (stateAfter (init s0) pind n).PORTD.testBit PUMP_RELAY_PIN
  · rfl
  · obtain ⟨c, hc10⟩ := relay_imp_latched (init s0) pind (init_relay s0) n hb
    unfold ALARM_THRESHOLD at hc10 hlt
    cases ch <;> cases c <;> simp only [Channel.other] at hz <;> omega

/-- Instance of C8: Scenario A, line 1 high on odd and low on even ticks, 20 ticks. -/
theorem C8_alternating_input_witness :
    (∀ k, 1 ≤ k → k < 20 →
        (alternating1 (k + 1)).testBit Channel.ch1.inputPin =
          !(alternating1 k).testBit Channel.ch1.inputPin) ∧
      (∀ k, 1 ≤ k → k ≤ 20 → (alternating1 k).testBit Channel.ch1.other.inputPin = false) ∧
      ((Channel.ch1.counter (stateAfter (init resetState) alternating1 20) = 0 ∨
          Channel.ch1.counter (stateAfter (init resetState) alternating1 20) = 1) ∧
        Channel.ch1.counter (stateAfter (init resetState) alternating1 20) < ALARM_THRESHOLD ∧
        Channel.ch1.alarm (stateAfter (init resetState) alternating1 20) = 0 ∧
        (stateAfter (init resetState) alternating1 20).PORTD.testBit PUMP_RELAY_PIN = false) :=
  ⟨fun k _ _ => alternating1_flips k, fun k _ _ => alternating1_line2 k,
    C8_alternating_input .ch1 (init resetState) alternating1 20
      (fun k _ _ => alternating1_flips k) (fun k _ _ => alternating1_line2 k)⟩

/-- C9: in a run started in the state left by `init`, at the end of every tick
(and before the first) the LED bit of each channel (bit 1 of `PORTB` for
channel 1, bit 2 for channel 2) is set exactly when the channel's alarm test
`wls_alarm_1` or `wls_alarm_2` is non-zero. -/
theorem C9_led_iff_alarm (ch : Channel) (s0 : State) (pind : Nat → Nat) (n : Nat) :
    (stateAfter (init s0) pind n).PORTB.testBit ch.ledPin = true ↔
      ch.alarm (stateAfter (init s0) pind n) ≠ 0 := by
  rw [Channel.alarm_ne_zero]
  constructor
  · exact led_imp_latched ch (init s0) pind (init_led s0 ch) n
  · intro h
    cases n with
    | zero =>
      rw [show stateAfter (init s0) pind 0 = init s0 from rfl, init_counter] at h
      exact absurd h (by decide)
    | succ m => exact led_of_latched_succ ch (init s0) pind m h

/-- C10, what the code does: in a run started in the state left by `init`,
`status_led_counter` after tick `n` is `n % 6`, and tick `n + 1` flips the
status LED bit (bit 0 of `PORTB`) exactly when `n + 1` is a multiple of 6; so
tick 5 leaves the bit as it was and tick 6 is the first to flip it. -/
theorem C10_status_led_period_six (s0 : State) (pind : Nat → Nat) (n : Nat) :
    (stateAfter (init s0) pind n).status_led_counter = n % 6 ∧
      ((stateAfter (init s0) pind (n + 1)).PORTB.testBit STATUS_LED_PIN ≠
          (stateAfter (init s0) pind n).PORTB.testBit STATUS_LED_PIN ↔ 6 ∣ n + 1) ∧
      (stateAfter (init s0) pind 5).PORTB.testBit STATUS_LED_PIN =
        (stateAfter (init s0) pind 4).PORTB.testBit STATUS_LED_PIN ∧
      (stateAfter (init s0) pind 6).PORTB.testBit STATUS_LED_PIN ≠
        (stateAfter (init s0) pind 5).PORTB.testBit STATUS_LED_PIN := by
  have step : ∀ m, (stateAfter (init s0) pind (m + 1)).PORTB.testBit STATUS_LED_PIN =
      ((stateAfter (init s0) pind m).PORTB.testBit STATUS_LED_PIN ^^ decide (m % 6 = 5)) := by
    intro m
    rw [show stateAfter (init s0) pind (m + 1) =
      main_loop_body (stateAfter (init s0) pind m) (pind (m + 1)) from rfl,
      main_loop_body_status_led, status_led_counter_after_init]
    have hm : m % 6 < 6 := Nat.mod_lt _ (by decide)
    have : (STATUS_LED_BLINK_THRESHOLD ≤ m % 6) ↔ m % 6 = 5 := by
      unfold STATUS_LED_BLINK_THRESHOLD; omega
    rw [decide_eq_decide.mpr this]
  refine ⟨status_led_counter_after_init s0 pind n, ?_, ?_, ?_⟩
  · rw [step n]
    have hdvd : 6 ∣ n + 1 ↔ n % 6 = 5 := by omega
    rw [hdvd]
    cases (stateAfter (init s0) pind n).PORTB.testBit STATUS_LED_PIN <;>
      by_cases h5 : n % 6 = 5 <;> simp [h5]
  · rw [step 4]; simp
  · rw [step 5]; simp

/-! ## The buzzer divider in one loop iteration -/

theorem blink_buzzer_beep_counter (s : State) :
    (blink_status_led s).buzzer_beep_counter = s.buzzer_beep_counter := by
  unfold blink_status_led STATUS_LED_BLINK; split <;> rfl

theorem beep_buzzer_beep_counter (s : State) :
    (beep s).buzzer_beep_counter =
      if BUZZER_BEEP_PERIOD_THRESHOLD ≤ s.buzzer_beep_counter then 0
      else u8 (s.buzzer_beep_counter + 1) := by
  unfold beep BUZZER_TOGGLE; split <;> rfl

theorem beep_buzzer (s : State) :
    (beep s).PORTB.testBit BUZZER_PIN =
      (s.PORTB.testBit BUZZER_PIN ^^
        decide (BUZZER_BEEP_PERIOD_THRESHOLD ≤ s.buzzer_beep_counter)) := by
  unfold beep BUZZER_TOGGLE
  split
  · rename_i h
    have h10 : BUZZER_BEEP_PERIOD_THRESHOLD ≤ s.buzzer_beep_counter := h
    simp [testBit_toggleBit, h10, BUZZER_PIN, PINB7]
  · rename_i h
    have h10 : ¬ BUZZER_BEEP_PERIOD_THRESHOLD ≤ s.buzzer_beep_counter := h
    simp [h10]

/-- The state handed to `beep` in an alarmed iteration, seen from the buzzer. -/
theorem alarm_branch_buzzer (s : State) :
    let a := PUMP_RELAY_OFF s
    let b := if wls_alarm_1 a ≠ 0 then WLS_ALARM_LED_1_ON a else a
    let c := if wls_alarm_2 b ≠ 0 then WLS_ALARM_LED_2_ON b else b
    c.buzzer_beep_counter = s.buzzer_beep_counter ∧
      c.PORTB.testBit BUZZER_PIN = s.PORTB.testBit BUZZER_PIN := by
  simp only [PUMP_RELAY_OFF, WLS_ALARM_LED_1_ON, WLS_ALARM_LED_2_ON, WLS_ALARM_LED_1_PIN,
    WLS_ALARM_LED_2_PIN, BUZZER_PIN, PINB1, PINB2, PINB7]
  split <;> split <;> simp [testBit_setBit]

theorem main_loop_body_buzzer_beep_counter (s : State) (pind : Nat) :
    (main_loop_body s pind).buzzer_beep_counter =
      if (read_sensors s pind).1 ≠ 0 then
        if BUZZER_BEEP_PERIOD_THRESHOLD ≤ s.buzzer_beep_counter then 0
        else u8 (s.buzzer_beep_counter + 1)
      else s.buzzer_beep_counter := by
  rw [main_loop_body_eq, blink_buzzer_beep_counter]
  split
  · rw [beep_buzzer_beep_counter, (alarm_branch_buzzer _).1]
    simp only [read_sensors_snd]
  · rw [read_sensors_snd]

theorem main_loop_body_buzzer (s : State) (pind : Nat) :
    (main_loop_body s pind).PORTB.testBit BUZZER_PIN =
      (s.PORTB.testBit BUZZER_PIN ^^
        decide ((read_sensors s pind).1 ≠ 0 ∧
          BUZZER_BEEP_PERIOD_THRESHOLD ≤ s.buzzer_beep_counter)) := by
  have hpin : BUZZER_PIN = 7 := rfl
  rw [main_loop_body_eq]
  rw [hpin, blink_testBit _ 7 (by omega) (by omega), ← hpin]
  split
  · rename_i ha
    rw [beep_buzzer, (alarm_branch_buzzer _).1, (alarm_branch_buzzer _).2]
    simp only [read_sensors_snd] at ha ⊢
    simp [ha]
  · rename_i ha
    simp only [read_sensors_snd] at ha ⊢
    simp [ha]

theorem alarmAt_latched {s : State} {pind : Nat → Nat} {n : Nat}
    (h : alarmAt s pind n ≠ 0) (m : Nat) : alarmAt s pind (n + m) ≠ 0 := by
  obtain ⟨ch, hch⟩ := (alarmAt_ne_zero s pind n).mp h
  refine (alarmAt_ne_zero s pind (n + m)).mpr ⟨ch, ?_⟩
  rw [Channel.counter_stateAfter] at hch ⊢
  have := counterAfter_alarm_mono hch m
  rwa [show n + 1 + m = n + m + 1 by omega] at this

theorem stateAfter_succ (s : State) (pind : Nat → Nat) (n : Nat) :
    stateAfter s pind (n + 1) = main_loop_body (stateAfter s pind n) (pind (n + 1)) := rfl

theorem buzzer_counter_while_alarmed (s : State) (pind : Nat → Nat)
    (hb : s.buzzer_beep_counter = 0) (ha : alarmAt s pind 0 ≠ 0) (j : Nat) :
    (stateAfter s pind j).buzzer_beep_counter = j % 11 := by
  induction j with
  | zero => exact hb
  | succ j ih =>
    have haj : (read_sensors (stateAfter s pind j) (pind (j + 1))).1 ≠ 0 := by
      have := alarmAt_latched ha j
      rwa [Nat.zero_add] at this
    rw [stateAfter_succ, main_loop_body_buzzer_beep_counter, if_pos haj, ih]
    unfold BUZZER_BEEP_PERIOD_THRESHOLD
    split
    · omega
    · rw [u8_of_lt (by omega)]; omega

theorem buzzer_step_while_alarmed (s : State) (pind : Nat → Nat)
    (hb : s.buzzer_beep_counter = 0) (ha : alarmAt s pind 0 ≠ 0) (j : Nat) :
    (stateAfter s pind (j + 1)).PORTB.testBit BUZZER_PIN =
      ((stateAfter s pind j).PORTB.testBit BUZZER_PIN ^^ decide (j % 11 = 10)) := by
  have haj : (read_sensors (stateAfter s pind j) (pind (j + 1))).1 ≠ 0 := by
    have := alarmAt_latched ha j
    rwa [Nat.zero_add] at this
  rw [stateAfter_succ, main_loop_body_buzzer, buzzer_counter_while_alarmed s pind hb ha j]
  have hm : j % 11 < 11 := Nat.mod_lt _ (by decide)
  have : ((read_sensors (stateAfter s pind j) (pind (j + 1))).1 ≠ 0 ∧
      BUZZER_BEEP_PERIOD_THRESHOLD ≤ j % 11) ↔ j % 11 = 10 := by
    unfold BUZZER_BEEP_PERIOD_THRESHOLD
    constructor
    · rintro ⟨_, h⟩; omega
    · intro h; exact ⟨haj, by omega⟩
  rw [decide_eq_decide.mpr this]

/-- C11, what the code does: when the first tick run from `s` is alarmed and
`buzzer_beep_counter` is 0 in `s`, the counter after the `j`-th alarmed tick is
`j % 11`, and alarmed tick `j + 1` flips the buzzer pin (bit 7 of `PORTB`)
exactly when `j + 1` is a multiple of 11; so the tenth alarmed tick leaves the
pin as it was and the eleventh is the first to flip it. -/
theorem C11_buzzer_period_eleven (s : State) (pind : Nat → Nat) (j : Nat)
    (hb : s.buzzer_beep_counter = 0) (ha : alarmAt s pind 0 ≠ 0) :
    (stateAfter s pind j).buzzer_beep_counter = j % 11 ∧
      ((stateAfter s pind (j + 1)).PORTB.testBit BUZZER_PIN ≠
          (stateAfter s pind j).PORTB.testBit BUZZER_PIN ↔ 11 ∣ j + 1) ∧
      (stateAfter s pind 10).PORTB.testBit BUZZER_PIN =
        (stateAfter s pind 9).PORTB.testBit BUZZER_PIN ∧
      (stateAfter s pind 11).PORTB.testBit BUZZER_PIN ≠
        (stateAfter s pind 10).PORTB.testBit BUZZER_PIN := by
  have step := buzzer_step_while_alarmed s pind hb ha
  refine ⟨buzzer_counter_while_alarmed s pind hb ha j, ?_, ?_, ?_⟩
  · rw [step j]
    have hdvd : 11 ∣ j + 1 ↔ j % 11 = 10 := by omega
    rw [hdvd]
    cases (stateAfter s pind j).PORTB.testBit BUZZER_PIN <;>
      by_cases h10 : j % 11 = 10 <;> simp [h10]
  · rw [step 9]; simp
  · rw [step 10]; simp

/-- Instance of C11: both lines high from `init` on; tick 10 is the first
alarmed tick, so the run is taken from the state after tick 9. -/
theorem C11_buzzer_period_eleven_witness :
    (stateAfter (init resetState) bothHigh 9).buzzer_beep_counter = 0 ∧
      alarmAt (stateAfter (init resetState) bothHigh 9) bothHigh 0 ≠ 0 ∧
      ((stateAfter (stateAfter (init resetState) bothHigh 9) bothHigh 10).buzzer_beep_counter
          = 10 % 11 ∧
        ((stateAfter (stateAfter (init resetState) bothHigh 9) bothHigh (10 + 1)).PORTB.testBit
              BUZZER_PIN ≠
            (stateAfter (stateAfter (init resetState) bothHigh 9) bothHigh 10).PORTB.testBit
              BUZZER_PIN ↔ 11 ∣ 10 + 1) ∧
        (stateAfter (stateAfter (init resetState) bothHigh 9) bothHigh 10).PORTB.testBit
            BUZZER_PIN =
          (stateAfter (stateAfter (init resetState) bothHigh 9) bothHigh 9).PORTB.testBit
            BUZZER_PIN ∧
        (stateAfter (stateAfter (init resetState) bothHigh 9) bothHigh 11).PORTB.testBit
            BUZZER_PIN ≠
          (stateAfter (stateAfter (init resetState) bothHigh 9) bothHigh 10).PORTB.testBit
            BUZZER_PIN) :=
  ⟨by decide, by decide,
    C11_buzzer_period_eleven (stateAfter (init resetState) bothHigh 9) bothHigh 10
      (by decide) (by decide)⟩

theorem buzzer_quiet_step (s : State) (p : Nat) (h : (read_sensors s p).1 = 0) :
    (main_loop_body s p).buzzer_beep_counter = s.buzzer_beep_counter ∧
      (main_loop_body s p).PORTB.testBit BUZZER_PIN = s.PORTB.testBit BUZZER_PIN := by
  have hn : ¬ (read_sensors s p).1 ≠ 0 := fun hne => hne h
  rw [main_loop_body_buzzer_beep_counter, if_neg hn, main_loop_body_buzzer]
  simp [h]

/-- C12: in a run started in the state left by `init`, as long as the alarm
value was zero on every tick so far, the buzzer pin (bit 7 of `PORTB`) is clear
and `buzzer_beep_counter` is 0; and from any state, a tick whose alarm value is
zero leaves the buzzer pin and `buzzer_beep_counter` as they were. -/
theorem C12_buzzer_silent (s0 : State) (pind : Nat → Nat) (n : Nat)
    (h : ∀ k, k < n → alarmAt (init s0) pind k = 0) :
    (stateAfter (init s0) pind n).PORTB.testBit BUZZER_PIN = false ∧
      (stateAfter (init s0) pind n).buzzer_beep_counter = 0 ∧
      ∀ (s : State) (p : Nat), (read_sensors s p).1 = 0 →
        (main_loop_body s p).buzzer_beep_counter = s.buzzer_beep_counter ∧
          (main_loop_body s p).PORTB.testBit BUZZER_PIN = s.PORTB.testBit BUZZER_PIN := by
  refine ⟨?_, ?_, buzzer_quiet_step⟩
  · induction n with
    | zero => exact init_buzzer s0
    | succ n ih =>
      rw [stateAfter_succ, (buzzer_quiet_step _ _ (h n (by omega))).2]
      exact ih (fun k hk => h k (by omega))
  · induction n with
    | zero => rfl
    | succ n ih =>
      rw [stateAfter_succ, (buzzer_quiet_step _ _ (h n (by omega))).1]
      exact ih (fun k hk => h k (by omega))

/-- Instance of C12: `init` run in a state left by an alarm, then nine ticks
with both lines high, none of which is alarmed yet. -/
theorem C12_buzzer_silent_witness :
    (∀ k, k < 9 → alarmAt (init alarmedState) bothHigh k = 0) ∧
      ((stateAfter (init alarmedState) bothHigh 9).PORTB.testBit BUZZER_PIN = false ∧
        (stateAfter (init alarmedState) bothHigh 9).buzzer_beep_counter = 0 ∧
        ∀ (s : State) (p : Nat), (read_sensors s p).1 = 0 →
          (main_loop_body s p).buzzer_beep_counter = s.buzzer_beep_counter ∧
            (main_loop_body s p).PORTB.testBit BUZZER_PIN = s.PORTB.testBit BUZZER_PIN) :=
  ⟨by decide, C12_buzzer_silent alarmedState bothHigh 9 (by decide)⟩

/-- C13: whatever the state before, after `init` the four counters are 0, both
alarm tests return 0, and the relay pin (bit 6 of `PORTD`), both alarm LED bits
(bits 1 and 2 of `PORTB`) and the buzzer bit (bit 7 of `PORTB`) are clear. -/
theorem C13_init_resets (s : State) :
    (init s).wls_alarm_counter_1 = 0 ∧ (init s).wls_alarm_counter_2 = 0 ∧
      (init s).buzzer_beep_counter = 0 ∧ (init s).status_led_counter = 0 ∧
      wls_alarm_1 (init s) = 0 ∧ wls_alarm_2 (init s) = 0 ∧
      (init s).PORTD.testBit PUMP_RELAY_PIN = false ∧
      (init s).PORTB.testBit WLS_ALARM_LED_1_PIN = false ∧
      (init s).PORTB.testBit WLS_ALARM_LED_2_PIN = false ∧
      (init s).PORTB.testBit BUZZER_PIN = false :=
  ⟨rfl, rfl, rfl, rfl, rfl, rfl, init_relay s, init_led s .ch1, init_led s .ch2, init_buzzer s⟩

/-- C14: the value returned by `read_sensors` is non-zero exactly when, after
the counter updates of that call, `wls_alarm_counter_1 ≥ 10` or
`wls_alarm_counter_2 ≥ 10`; it is the disjunction of the two alarm tests on the
updated state, and states with the same two counters give the same value. -/
theorem C14_alarm_aggregation (s : State) (pind : Nat) :
    ((read_sensors s pind).1 ≠ 0 ↔
        (ALARM_THRESHOLD ≤ (read_sensors s pind).2.wls_alarm_counter_1 ∨
          ALARM_THRESHOLD ≤ (read_sensors s pind).2.wls_alarm_counter_2)) ∧
      ((read_sensors s pind).1 ≠ 0 ↔
        (wls_alarm_1 (read_sensors s pind).2 ≠ 0 ∨ wls_alarm_2 (read_sensors s pind).2 ≠ 0)) ∧
      ∀ t : State, t.wls_alarm_counter_1 = s.wls_alarm_counter_1 →
        t.wls_alarm_counter_2 = s.wls_alarm_counter_2 →
        (read_sensors t pind).1 = (read_sensors s pind).1 := by
  refine ⟨read_sensors_fst_ne_zero s pind, ?_, ?_⟩
  · rw [read_sensors_fst_ne_zero, wls_alarm_1_ne_zero, wls_alarm_2_ne_zero]
  · intro t h1 h2
    have hs := read_sensors_fst_ne_zero s pind
    have ht := read_sensors_fst_ne_zero t pind
    simp only [read_sensors_snd, h1, h2] at hs ht
    have hv : ∀ u : State, (read_sensors u pind).1 = 0 ∨ (read_sensors u pind).1 = 1 := by
      intro u
      simp only [read_sensors]
      split
      · exact Or.inr rfl
      · exact Or.inl rfl
    have hiff : (read_sensors t pind).1 ≠ 0 ↔ (read_sensors s pind).1 ≠ 0 := ht.trans hs.symm
    rcases hv t with h | h <;> rcases hv s with h' | h'
    · rw [h, h']
    · exact absurd h (hiff.mpr (by rw [h']; decide))
    · exact absurd h' (hiff.mp (by rw [h]; decide))
    · rw [h, h']

theorem blink_status_led_counter (s : State) :
    (blink_status_led s).status_led_counter =
      if STATUS_LED_BLINK_THRESHOLD ≤ s.status_led_counter then 0
      else u8 (s.status_led_counter + 1) := by
  unfold blink_status_led STATUS_LED_BLINK; split <;> rfl

theorem blink_status_led_bit (s : State) :
    (blink_status_led s).PORTB.testBit STATUS_LED_PIN =
      (s.PORTB.testBit STATUS_LED_PIN ^^
        decide (STATUS_LED_BLINK_THRESHOLD ≤ s.status_led_counter)) := by
  unfold blink_status_led STATUS_LED_BLINK
  split
  · rename_i h
    have h5 : STATUS_LED_BLINK_THRESHOLD ≤ s.status_led_counter := h
    simp [testBit_toggleBit, h5, STATUS_LED_PIN, PINB0, -Nat.testBit_zero]
  · rename_i h
    have h5 : ¬ STATUS_LED_BLINK_THRESHOLD ≤ s.status_led_counter := h
    simp [h5, -Nat.testBit_zero]

/-- C15: two runs of the main loop that start with the same
`status_led_counter` and the same status LED bit (bit 0 of `PORTB`), whatever
their sensor counters, buzzer state and inputs, have the same
`status_led_counter` and status LED bit after every tick; and in every tick,
alarmed or not, these two change as by exactly one call of
`blink_status_led`. -/
theorem C15_heartbeat_independent (s t : State) (p q : Nat → Nat) (n : Nat)
    (hc : s.status_led_counter = t.status_led_counter)
    (hb : s.PORTB.testBit STATUS_LED_PIN = t.PORTB.testBit STATUS_LED_PIN) :
    (stateAfter s p n).status_led_counter = (stateAfter t q n).status_led_counter ∧
      (stateAfter s p n).PORTB.testBit STATUS_LED_PIN =
        (stateAfter t q n).PORTB.testBit STATUS_LED_PIN ∧
      ∀ (u : State) (x : Nat),
        (main_loop_body u x).status_led_counter = (blink_status_led u).status_led_counter ∧
          (main_loop_body u x).PORTB.testBit STATUS_LED_PIN =
            (blink_status_led u).PORTB.testBit STATUS_LED_PIN := by
  have both : (stateAfter s p n).status_led_counter = (stateAfter t q n).status_led_counter ∧
      (stateAfter s p n).PORTB.testBit STATUS_LED_PIN =
        (stateAfter t q n).PORTB.testBit STATUS_LED_PIN := by
    induction n with
    | zero => exact ⟨hc, hb⟩
    | succ n ih =>
      simp only [stateAfter_succ, main_loop_body_status_led_counter, main_loop_body_status_led,
        ih.1, ih.2, and_self]
  refine ⟨both.1, both.2, ?_⟩
  intro u x
  rw [main_loop_body_status_led_counter, main_loop_body_status_led, blink_status_led_counter,
    blink_status_led_bit]
  exact ⟨rfl, rfl⟩

/-- Instance of C15: a quiet run from `init` against an alarmed run started in
a state with the buzzer on and channel 2 latched. -/
theorem C15_heartbeat_independent_witness :
    (init resetState).status_led_counter =
        alarmedLedOff.status_led_counter ∧
      (init resetState).PORTB.testBit STATUS_LED_PIN =
        alarmedLedOff.PORTB.testBit
          STATUS_LED_PIN ∧
      ((stateAfter (init resetState) bothLow 40).status_led_counter =
          (stateAfter alarmedLedOff
            bothHigh 40).status_led_counter ∧
        (stateAfter (init resetState) bothLow 40).PORTB.testBit STATUS_LED_PIN =
          (stateAfter alarmedLedOff
            bothHigh 40).PORTB.testBit STATUS_LED_PIN ∧
        ∀ (u : State) (x : Nat),
          (main_loop_body u x).status_led_counter = (blink_status_led u).status_led_counter ∧
            (main_loop_body u x).PORTB.testBit STATUS_LED_PIN =
              (blink_status_led u).PORTB.testBit STATUS_LED_PIN) :=
  ⟨by decide, by decide,
    C15_heartbeat_independent (init resetState)
      alarmedLedOff bothLow bothHigh 40
      (by decide) (by decide)⟩

theorem beep_ports_frame (s : State) :
    (beep s).DDRB = s.DDRB ∧ (beep s).DDRD = s.DDRD ∧ (beep s).ACSR = s.ACSR := by
  unfold beep BUZZER_TOGGLE; split <;> exact ⟨rfl, rfl, rfl⟩

theorem blink_ports_frame (s : State) :
    (blink_status_led s).DDRB = s.DDRB ∧ (blink_status_led s).DDRD = s.DDRD ∧
      (blink_status_led s).ACSR = s.ACSR := by
  unfold blink_status_led STATUS_LED_BLINK; split <;> exact ⟨rfl, rfl, rfl⟩

/-- C16: `beep` changes at most `buzzer_beep_counter` and bit 7 of the 8-bit
register `PORTB`, and `blink_status_led` at most `status_led_counter` and bit 0
of `PORTB`; both leave the sensor counters, `PORTD`, the other divider and every
other bit of `PORTB` (the alarm LED bits 1 and 2 among them) as they were;
`read_sensors` leaves `PORTB`, `PORTD` and both divider counters as they were. -/
theorem C16_frame (s : State) (pind : Nat) :
    ((beep s).wls_alarm_counter_1 = s.wls_alarm_counter_1 ∧
        (beep s).wls_alarm_counter_2 = s.wls_alarm_counter_2 ∧
        (beep s).status_led_counter = s.status_led_counter ∧
        (beep s).PORTD = s.PORTD ∧
        (beep s).DDRB = s.DDRB ∧ (beep s).DDRD = s.DDRD ∧ (beep s).ACSR = s.ACSR ∧
        ∀ i, i < 8 → i ≠ BUZZER_PIN → (beep s).PORTB.testBit i = s.PORTB.testBit i) ∧
      ((blink_status_led s).wls_alarm_counter_1 = s.wls_alarm_counter_1 ∧
        (blink_status_led s).wls_alarm_counter_2 = s.wls_alarm_counter_2 ∧
        (blink_status_led s).buzzer_beep_counter = s.buzzer_beep_counter ∧
        (blink_status_led s).PORTD = s.PORTD ∧
        (blink_status_led s).DDRB = s.DDRB ∧ (blink_status_led s).DDRD = s.DDRD ∧
        (blink_status_led s).ACSR = s.ACSR ∧
        ∀ i, i < 8 → i ≠ STATUS_LED_PIN →
          (blink_status_led s).PORTB.testBit i = s.PORTB.testBit i) ∧
      ((read_sensors s pind).2.PORTB = s.PORTB ∧
        (read_sensors s pind).2.PORTD = s.PORTD ∧
        (read_sensors s pind).2.buzzer_beep_counter = s.buzzer_beep_counter ∧
        (read_sensors s pind).2.status_led_counter = s.status_led_counter ∧
        (read_sensors s pind).2.DDRB = s.DDRB ∧ (read_sensors s pind).2.DDRD = s.DDRD ∧
        (read_sensors s pind).2.ACSR = s.ACSR) := by
  refine ⟨⟨beep_counter_1 s, beep_counter_2 s, beep_status_led_counter s, beep_PORTD s,
      (beep_ports_frame s).1, (beep_ports_frame s).2.1, (beep_ports_frame s).2.2, ?_⟩,
    ⟨blink_counter_1 s, blink_counter_2 s, blink_buzzer_beep_counter s, blink_PORTD s,
      (blink_ports_frame s).1, (blink_ports_frame s).2.1, (blink_ports_frame s).2.2, ?_⟩, ?_⟩
  · intro i hi hne
    have h7 : BUZZER_PIN = 7 := rfl
    exact beep_testBit s i (by omega)
  · intro i hi hne
    have h0 : STATUS_LED_PIN = 0 := rfl
    exact blink_testBit s i (by omega) hi
  · rw [read_sensors_snd]
    exact ⟨rfl, rfl, rfl, rfl, rfl, rfl, rfl⟩

theorem counterAfter_congr (c : Nat) (act act2 : Nat → Bool) (n : Nat)
    (h : ∀ k, 1 ≤ k → k ≤ n → act k = act2 k) :
    counterAfter c act n = counterAfter c act2 n := by
  induction n with
  | zero => rfl
  | succ n ih =>
    simp only [counterAfter, ih (fun k h1 hk => h k h1 (by omega)),
      h (n + 1) (by omega) (by omega)]

/-- C17: the counter a channel has after `read_sensors` is determined by its
old counter and its own input bit alone, for one call and along whole runs of
the main loop; also when the other channel is latched the counter moves up or
down by its own input, and in a tick that brings it to `ALARM_THRESHOLD` the
channel's own LED bit is set. -/
theorem C17_channels_independent (ch : Channel) (s t : State) (x y : Nat)
    (hc : ch.counter s = ch.counter t)
    (hx : x.testBit ch.inputPin = y.testBit ch.inputPin) :
    ch.counter (read_sensors s x).2 = ch.counter (read_sensors t y).2 ∧
      (∀ (p q : Nat → Nat) (n : Nat),
        (∀ k, 1 ≤ k → k ≤ n → (p k).testBit ch.inputPin = (q k).testBit ch.inputPin) →
        ch.counter (stateAfter s p n) = ch.counter (stateAfter t q n)) ∧
      (ALARM_THRESHOLD ≤ ch.other.counter s →
        ch.counter (read_sensors s x).2 =
          if ALARM_THRESHOLD ≤ ch.counter s then ch.counter s
          else if x.testBit ch.inputPin = true then ch.counter s + 1
          else ch.counter s - 1) ∧
      (ALARM_THRESHOLD ≤ ch.counter (main_loop_body s x) →
        (main_loop_body s x).PORTB.testBit ch.ledPin = true) := by
  refine ⟨?_, ?_, ?_, ?_⟩
  · rw [Channel.counter_read_sensors, Channel.counter_read_sensors, hc, hx]
  · intro p q n h
    rw [Channel.counter_stateAfter, Channel.counter_stateAfter, hc]
    exact counterAfter_congr _ _ _ n h
  · intro _
    rw [Channel.counter_read_sensors]
    unfold counterStep
    cases x.testBit ch.inputPin <;> simp
  · intro h
    rw [Channel.led_main_loop_body, Bool.or_eq_true, decide_eq_true_eq]
    exact Or.inl h

/-- Instance of C17: channel 1 in the state left by `init`, and in a state
with the same counter 1 in which channel 2 is latched. -/
theorem C17_channels_independent_witness :
    Channel.ch1.counter alarmedState =
        Channel.ch1.counter (stateAfter (init resetState) bothHigh 4) ∧
      (4 : Nat).testBit Channel.ch1.inputPin = (12 : Nat).testBit Channel.ch1.inputPin ∧
      (Channel.ch1.counter (read_sensors alarmedState 4).2 =
          Channel.ch1.counter (read_sensors (stateAfter (init resetState) bothHigh 4) 12).2 ∧
        (∀ (p q : Nat → Nat) (n : Nat),
          (∀ k, 1 ≤ k → k ≤ n →
            (p k).testBit Channel.ch1.inputPin = (q k).testBit Channel.ch1.inputPin) →
          Channel.ch1.counter (stateAfter alarmedState p n) =
            Channel.ch1.counter (stateAfter (stateAfter (init resetState) bothHigh 4) q n)) ∧
        (ALARM_THRESHOLD ≤ Channel.ch1.other.counter alarmedState →
          Channel.ch1.counter (read_sensors alarmedState 4).2 =
            if ALARM_THRESHOLD ≤ Channel.ch1.counter alarmedState then
              Channel.ch1.counter alarmedState
            else if (4 : Nat).testBit Channel.ch1.inputPin = true then
              Channel.ch1.counter alarmedState + 1
            else Channel.ch1.counter alarmedState - 1) ∧
        (ALARM_THRESHOLD ≤ Channel.ch1.counter (main_loop_body alarmedState 4) →
          (main_loop_body alarmedState 4).PORTB.testBit Channel.ch1.ledPin = true)) :=
  ⟨by decide, by decide,
    C17_channels_independent .ch1 alarmedState (stateAfter (init resetState) bothHigh 4) 4 12
      (by decide) (by decide)⟩

/-! ## The start-up signal -/

theorem traceStmts_append (a b : List Stmt) (s : State) :
    traceStmts (a ++ b) s = traceStmts a s ++ traceStmts b (execStmts a s) := by
  induction a generalizing s with
  | nil => rfl
  | cons st rest ih =>
    show st.events s ++ traceStmts (rest ++ b) (st.exec s) = _
    rw [ih]
    exact (List.append_assoc _ _ _).symm

theorem execStmts_append (a b : List Stmt) (s : State) :
    execStmts (a ++ b) s = execStmts b (execStmts a s) := by
  induction a generalizing s with
  | nil => rfl
  | cons st rest ih => exact ih (st.exec s)

theorem execStmts_init_setup (s : State) : execStmts init_setup_stmts s = init_setup s := rfl

theorem execStmts_init (s : State) : execStmts init_stmts s = init s := rfl

theorem trace_init_pulse (s : State) (h : s.PORTB.testBit BUZZER_PIN = false) :
    traceStmts init_pulse_stmts s =
      [.buzzer true, .delay 100, .buzzer false, .delay 100] := by
  have h7 : s.PORTB.testBit 7 = false := h
  simp [init_pulse_stmts, traceStmts, Stmt.events, Stmt.exec, BUZZER_BEEP_ON, BUZZER_BEEP_OFF,
    testBit_setBit, testBit_clearBit, BUZZER_PIN, PINB7, h7]

theorem execStmts_init_pulse (s : State) : execStmts init_pulse_stmts s = init_pulse s := rfl

theorem init_pulse_buzzer (s : State) : (init_pulse s).PORTB.testBit BUZZER_PIN = false := by
  show (clearBit _ BUZZER_PIN).testBit BUZZER_PIN = false
  simp [testBit_clearBit]

theorem init_setup_buzzer (s : State) : (init_setup s).PORTB.testBit BUZZER_PIN = false := by
  show (clearBit _ BUZZER_PIN).testBit BUZZER_PIN = false
  simp [testBit_clearBit]

theorem trace_init_setup (s : State) :
    traceStmts init_setup_stmts s =
      if s.PORTB.testBit BUZZER_PIN = true then [.buzzer false] else [] := by
  cases h : s.PORTB.testBit BUZZER_PIN <;>
    simp [init_setup_stmts, traceStmts, Stmt.events, Stmt.exec, WLS_ALARM_LED_1_OFF,
      WLS_ALARM_LED_2_OFF, BUZZER_BEEP_OFF, PUMP_RELAY_ON, testBit_clearBit,
      WLS_ALARM_LED_1_PIN, WLS_ALARM_LED_2_PIN, PINB1, PINB2] <;>
    simp [BUZZER_PIN, PINB7] at h ⊢ <;> simp [h]

theorem trace_init_signal (s : State) (h : s.PORTB.testBit BUZZER_PIN = false) :
    traceStmts init_signal_stmts s =
      [.buzzer true, .delay 100, .buzzer false, .delay 100,
        .buzzer true, .delay 100, .buzzer false, .delay 100,
        .buzzer true, .delay 100, .buzzer false, .delay 100] := by
  unfold init_signal_stmts
  rw [traceStmts_append, traceStmts_append, execStmts_append, trace_init_pulse s h,
    execStmts_init_pulse, trace_init_pulse _ (init_pulse_buzzer s), execStmts_init_pulse,
    trace_init_pulse _ (init_pulse_buzzer _)]
  rfl

/-- C18: the statements of `init`, executed in order, give the state `init`
returns; the set-up part waits nowhere and at most switches the buzzer off, and
leaves the relay pin clear (pump energized), the four counters 0 and the buzzer
off; from there the signal loop makes exactly the events buzzer on, 100 ms
delay, buzzer off, 100 ms delay, three times; the buzzer is off on return. -/
theorem C18_startup_signal (s : State) :
    execStmts init_stmts s = init s ∧
      execStmts init_setup_stmts s = init_setup s ∧
      traceStmts init_stmts s =
        traceStmts init_setup_stmts s ++ traceStmts init_signal_stmts (init_setup s) ∧
      traceStmts init_setup_stmts s =
        (if s.PORTB.testBit BUZZER_PIN = true then [.buzzer false] else []) ∧
      ((init_setup s).PORTD.testBit PUMP_RELAY_PIN = false ∧
        (init_setup s).wls_alarm_counter_1 = 0 ∧ (init_setup s).wls_alarm_counter_2 = 0 ∧
        (init_setup s).buzzer_beep_counter = 0 ∧ (init_setup s).status_led_counter = 0 ∧
        (init_setup s).PORTB.testBit BUZZER_PIN = false) ∧
      traceStmts init_signal_stmts (init_setup s) =
        [.buzzer true, .delay 100, .buzzer false, .delay 100,
          .buzzer true, .delay 100, .buzzer false, .delay 100,
          .buzzer true, .delay 100, .buzzer false, .delay 100] ∧
      (init s).PORTB.testBit BUZZER_PIN = false := by
  refine ⟨rfl, rfl, ?_, trace_init_setup s, ⟨?_, rfl, rfl, rfl, rfl, init_setup_buzzer s⟩,
    trace_init_signal _ (init_setup_buzzer s), init_buzzer s⟩
  · unfold init_stmts
    rw [traceStmts_append, execStmts_init_setup]
  · show (clearBit s.PORTD PUMP_RELAY_PIN).testBit PUMP_RELAY_PIN = false
    simp [testBit_clearBit]

theorem buzzer_beep_counter_le (s0 : State) (pind : Nat → Nat) (n : Nat) :
    (stateAfter (init s0) pind n).buzzer_beep_counter ≤ BUZZER_BEEP_PERIOD_THRESHOLD := by
  induction n with
  | zero => exact Nat.zero_le _
  | succ n ih =>
    rw [stateAfter_succ, main_loop_body_buzzer_beep_counter]
    unfold BUZZER_BEEP_PERIOD_THRESHOLD at *
    split
    · split
      · omega
      · rw [u8_of_lt (by omega)]; omega
    · exact ih

/-- C19: in a run started in the state left by `init`, after every tick
`status_led_counter ≤ 5` and `buzzer_beep_counter ≤ 10`, so the 8-bit increment
of either counter in the next tick is the exact successor. -/
theorem C19_dividers_bounded (s0 : State) (pind : Nat → Nat) (n : Nat) :
    (stateAfter (init s0) pind n).status_led_counter ≤ STATUS_LED_BLINK_THRESHOLD ∧
      (stateAfter (init s0) pind n).buzzer_beep_counter ≤ BUZZER_BEEP_PERIOD_THRESHOLD ∧
      u8 ((stateAfter (init s0) pind n).status_led_counter + 1) =
        (stateAfter (init s0) pind n).status_led_counter + 1 ∧
      u8 ((stateAfter (init s0) pind n).buzzer_beep_counter + 1) =
        (stateAfter (init s0) pind n).buzzer_beep_counter + 1 := by
  have hs : (stateAfter (init s0) pind n).status_led_counter ≤ STATUS_LED_BLINK_THRESHOLD := by
    rw [status_led_counter_after_init]
    unfold STATUS_LED_BLINK_THRESHOLD
    omega
  have hb := buzzer_beep_counter_le s0 pind n
  refine ⟨hs, hb, u8_of_lt ?_, u8_of_lt ?_⟩
  · unfold STATUS_LED_BLINK_THRESHOLD at hs; omega
  · unfold BUZZER_BEEP_PERIOD_THRESHOLD at hb; omega

theorem counterAfter_net (act : Nat → Bool) (d : Nat)
    (hnz : ∀ j, 1 ≤ j → j ≤ d → counterAfter 0 act j ≠ 0)
    (hlt : ∀ j, j < d → counterAfter 0 act j < ALARM_THRESHOLD) (j : Nat) (hj : j ≤ d) :
    activeCount act j = activeCount (fun k => !act k) j + counterAfter 0 act j := by
  induction j with
  | zero => rfl
  | succ j ih =>
    have ihj := ih (by omega)
    have hlt' : ¬ 10 ≤ counterAfter 0 act j := by
      have := hlt j (by omega)
      unfold ALARM_THRESHOLD at this
      omega
    have hnz' := hnz (j + 1) (by omega) hj
    simp only [counterAfter, activeCount, counterStep, ALARM_THRESHOLD, if_neg hlt'] at hnz' ⊢
    rcases Bool.eq_false_or_eq_true (act (j + 1)) with hb | hb
    · simp only [hb, if_true, Bool.not_true, Bool.false_eq_true, if_false] at hnz' ⊢
      omega
    · simp only [hb, Bool.false_eq_true, if_false, Bool.not_false, if_true] at hnz' ⊢
      omega

/-- C20: if a channel's counter is 0 after tick `m`, non-zero after every tick
between `m` and `n`, and the channel is alarmed after tick `n` but after no
earlier tick, then over ticks `m + 1 .. n` the number of active reads is the
number of inactive reads plus 10; hence `n - m ≥ 10`, at least 10 of these reads
were active, and the read on tick `n` was active. -/
theorem C20_net_excess (ch : Channel) (s : State) (pind : Nat → Nat) (m n : Nat)
    (hmn : m < n)
    (hm : ch.counter (stateAfter s pind m) = 0)
    (hlast : ∀ k, m < k → k < n → ch.counter (stateAfter s pind k) ≠ 0)
    (hfirst : ∀ k, k < n → ch.alarm (stateAfter s pind k) = 0)
    (hn : ch.alarm (stateAfter s pind n) ≠ 0) :
    activeCount (fun k => ch.line pind (m + k)) (n - m) =
        activeCount (fun k => !ch.line pind (m + k)) (n - m) + 10 ∧
      10 ≤ n - m ∧
      10 ≤ activeCount (fun k => ch.line pind (m + k)) (n - m) ∧
      (pind n).testBit ch.inputPin = true := by
  obtain ⟨d, rfl⟩ : ∃ d, n = m + (d + 1) := ⟨n - m - 1, by omega⟩
  have shift : ∀ j, ch.counter (stateAfter s pind (m + j)) =
      counterAfter 0 (fun k => ch.line pind (m + k)) j := by
    intro j
    rw [Channel.counter_stateAfter, counterAfter_add, ← Channel.counter_stateAfter, hm]
  have hn10 : ALARM_THRESHOLD ≤ counterAfter 0 (fun k => ch.line pind (m + k)) (d + 1) := by
    rw [← shift]; exact (ch.alarm_ne_zero _).mp hn
  have hlt : ∀ j, j < d + 1 →
      counterAfter 0 (fun k => ch.line pind (m + k)) j < ALARM_THRESHOLD := by
    intro j hj
    rw [← shift]
    exact (ch.alarm_eq_zero _).mp (hfirst (m + j) (by omega))
  have hnz : ∀ j, 1 ≤ j → j ≤ d + 1 →
      counterAfter 0 (fun k => ch.line pind (m + k)) j ≠ 0 := by
    intro j h1 hj
    rcases Nat.lt_or_ge j (d + 1) with h | h
    · rw [← shift]; exact hlast (m + j) (by omega) (by omega)
    · have : j = d + 1 := by omega
      subst this
      unfold ALARM_THRESHOLD at hn10
      omega
  obtain ⟨hact, _, h10⟩ := counterAfter_trip (hlt d (by omega)) hn10
  have hnet := counterAfter_net _ (d + 1) hnz hlt (d + 1) (Nat.le_refl _)
  rw [h10] at hnet
  have hle := activeCount_le (fun k => ch.line pind (m + k)) (d + 1)
  rw [show m + (d + 1) - m = d + 1 by omega]
  exact ⟨hnet, by omega, by omega, hact⟩

/-- Instance of C20: line 1 low on ticks 2 and 12 only; the counter is last 0
after tick 2 and the alarm trips on tick 14. -/
theorem C20_net_excess_witness :
    2 < 14 ∧
      Channel.ch1.counter (stateAfter (init resetState) lateTrip 2) = 0 ∧
      (∀ k, 2 < k → k < 14 → Channel.ch1.counter (stateAfter (init resetState) lateTrip k) ≠ 0) ∧
      (∀ k, k < 14 → Channel.ch1.alarm (stateAfter (init resetState) lateTrip k) = 0) ∧
      Channel.ch1.alarm (stateAfter (init resetState) lateTrip 14) ≠ 0 ∧
      (activeCount (fun k => Channel.ch1.line lateTrip (2 + k)) (14 - 2) =
          activeCount (fun k => !Channel.ch1.line lateTrip (2 + k)) (14 - 2) + 10 ∧
        10 ≤ 14 - 2 ∧
        10 ≤ activeCount (fun k => Channel.ch1.line lateTrip (2 + k)) (14 - 2) ∧
        (lateTrip 14).testBit Channel.ch1.inputPin = true) :=
  ⟨by decide, by decide, fun k h1 h2 => by interval_cases k <;> decide, by decide, by decide,
    C20_net_excess .ch1 (init resetState) lateTrip 2 14 (by decide) (by decide)
      (fun k h1 h2 => by interval_cases k <;> decide) (by decide) (by decide)⟩

end WPP
